import Mathlib

/-
  Shallow embedding of the AOC-SMS-Admin core engine (Python) in Lean 4:
  phone and keyword normalization (app/utils.py, migration 007), the recipient
  filters (app/services/recipient_service.py), failure classification and the
  suppression engine (app/services/suppression_service.py), the outbound bulk
  dispatch job (app/tasks.py), the scheduled-send claim step
  (app/services/scheduler_service.py) and the inbound automation engine
  (app/services/inbox_service.py).
-/

namespace SMSAdmin

/-! ## Basic string helpers (Python string semantics on character lists) -/

/-- Leading and trailing whitespace removal on a character list (Python strip). -/
def trimCharList (l : List Char) : List Char :=
  ((l.dropWhile Char.isWhitespace).reverse.dropWhile Char.isWhitespace).reverse

/-- Python str.strip. -/
def pyStrip (s : String) : String :=
  String.mk (trimCharList s.data)

/-- Python str.lower on the character level. -/
def pyLower (s : String) : String :=
  String.mk (s.data.map Char.toLower)

/-- Does the character list start with the given character. -/
def startsWithChar (l : List Char) (c : Char) : Bool :=
  match l with
  | [] => false
  | x :: _ => x = c

/-- Substring test on character lists: does pat occur contiguously in hay. -/
def listContainsSub (hay pat : List Char) : Bool :=
  match hay with
  | [] => pat.isEmpty
  | _ :: t => pat.isPrefixOf hay || listContainsSub t pat

/-- Python substring test pat in hay. -/
def strContainsSub (hay pat : String) : Bool :=
  listContainsSub hay.data pat.data

/-- Split a character list on whitespace runs, dropping empty words
(Python str.split with no separator). The first argument accumulates the
current word in reverse. -/
def splitWsAux : List Char → List Char → List (List Char)
  | [], acc => if acc = [] then [] else [acc.reverse]
  | c :: cs, acc =>
    if c.isWhitespace then
      if acc = [] then splitWsAux cs [] else acc.reverse :: splitWsAux cs []
    else splitWsAux cs (c :: acc)

/-- Join words with single spaces (Python " ".join). -/
def joinSpace : List (List Char) → List Char
  | [] => []
  | [w] => w
  | w :: rest => w ++ ' ' :: joinSpace rest

/-! ## Phone normalization (src/app/utils.py) -/

/-- normalize_phone from app/utils.py: strips the input, removes every
character that is neither a digit nor a plus sign, keeps a leading plus as
is, prefixes an 11-digit string starting with 1 or a bare 10-digit string
with the North-American prefix, and otherwise prefixes a plus verbatim. -/
def normalize_phone (phone : String) : String :=
  if phone = "" then ""
  else
    let cleaned := (trimCharList phone.data).filter (fun c => c.isDigit || c = '+')
    if startsWithChar cleaned '+' then String.mk cleaned
    else if startsWithChar cleaned '1' && cleaned.length = 11 then String.mk ('+' :: cleaned)
    else if cleaned.length = 10 then String.mk ('+' :: '1' :: cleaned)
    else String.mk ('+' :: cleaned)

/-- validate_phone from app/utils.py: the normalized phone must be a plus
sign followed by 7 to 15 digits. -/
def validate_phone (phone : String) : Bool :=
  if phone = "" then false
  else
    match (normalize_phone phone).data with
    | '+' :: rest => decide (7 ≤ rest.length) && decide (rest.length ≤ 15) && rest.all Char.isDigit
    | _ => false

/-! ## Keyword normalization -/

/-- Modelled from the spec: normalize_keyword is imported from app.utils by
inbox_service.py and models.py but its definition is absent from the source
tree under src. Per the spec it upper-cases the input, collapses every
whitespace run (including tabs and newlines) to a single space, and trims
leading and trailing whitespace. This matches the repository in-tree copy
in migration 007 (join of the whitespace split of the upper-cased input). -/
def normalize_keyword (raw : String) : String :=
  String.mk (joinSpace (splitWsAux (raw.data.map Char.toUpper) []))

/-- keyword_candidates from app/services/inbox_service.py: the normalized
text and, when it has several words, also its first word. -/
def keyword_candidates (text : String) : List String :=
  let normalized := normalize_keyword text
  if normalized = "" then []
  else
    let firstWord := String.mk (normalized.data.takeWhile (fun c => c ≠ ' '))
    if firstWord ≠ normalized then [normalized, firstWord] else [normalized]

/-! ## Recipient filtering (src/app/services/recipient_service.py)

The database tables are passed explicitly: a suppression table is the list
of phone values of its rows. -/

/-- A recipient record: a dict with name and phone keys. -/
structure Recipient where
  name : Option String
  phone : String
deriving Repr, DecidableEq

/-- get_unsubscribed_phone_set (and get_suppressed_phone_set, identical
shape): the phones of the table rows whose phone is among the given
(truthy, i.e. nonempty) phones. -/
def get_suppression_phone_set (table : List String) (phones : List String) : List String :=
  let phones := phones.filter (fun p => p ≠ "")
  if phones = [] then []
  else table.filter (fun p => phones.contains p)

/-- filter_unsubscribed_recipients from recipient_service.py; the
unsubscribed table is passed as its list of phone values.
filter_suppressed_recipients is the same function over the suppressed
table. Returns (kept, removed, matched phone set). -/
def filter_recipients_by_table (table : List String) (recipients : List Recipient) :
    List Recipient × List Recipient × List String :=
  let phones := (recipients.map (fun r => r.phone)).filter (fun p => p ≠ "")
  let matched := get_suppression_phone_set table phones
  if matched = [] then (recipients, [], [])
  else
    let filtered := recipients.filter (fun r => ! matched.contains r.phone)
    let skipped := recipients.filter (fun r => matched.contains r.phone)
    (filtered, skipped, matched)

/-! ## Failure classification (src/app/services/suppression_service.py) -/

def opt_out_patterns : List String :=
  ["unsubscribed", "opted out", "opt-out", "opt out", "stop", "reply stop",
   "unsubscribe", "cancel", "quit", "end", "blocked",
   "recipient has opted out", "opt-out", "21610", "30004"]

def hard_fail_patterns : List String :=
  ["invalid", "not a valid", "does not exist", "unknown subscriber",
   "unreachable", "landline", "not a mobile", "no route", "unassigned",
   "number is not valid", "phone number is not", "carrier violation",
   "30003", "30005", "30007"]

def soft_fail_patterns : List String :=
  ["temporarily", "timeout", "timed out", "rate limit", "throttle",
   "too many requests", "network", "connection", "service unavailable",
   "server error", "unavailable", "gateway",
   "429", "500", "502", "503", "504"]

/-- Does any pattern of the set occur in the message. -/
def matchesAnyPattern (patterns : List String) (message : String) : Bool :=
  patterns.any (fun pat => strContainsSub message pat)

/-- classify_failure from suppression_service.py: lower-case the error text
and test the three ordered pattern sets; empty or unmatched text is a soft
failure. -/
def classify_failure (errorText : String) : String :=
  if errorText = "" then "soft_fail"
  else
    let message := pyLower errorText
    if matchesAnyPattern opt_out_patterns message then "opt_out"
    else if matchesAnyPattern hard_fail_patterns message then "hard_fail"
    else if matchesAnyPattern soft_fail_patterns message then "soft_fail"
    else "soft_fail"

/-! ## Suppression engine (process_failure_details) -/

/-- One per-recipient result entry handed to the suppression engine. The
error field models detail.get(error) or detail.get(message) or the empty
string; the phone field models detail.get(phone) or detail.get(to) or
detail.get(recipient) or the empty string. -/
structure FailDetail where
  phone : String
  name : Option String
  success : Option Bool
  status : Option String
  error : String
deriving Repr, DecidableEq

/-- UnsubscribedContact row (models.py): phone is unique in the table. -/
structure Unsub where
  name : Option String
  phone : String
  reason : Option String
  source : String
deriving Repr, DecidableEq

/-- SuppressedContact row (models.py): phone is unique in the table. -/
structure Suppressed where
  phone : String
  reason : String
  category : String
  source : String
  sourceType : String
  sourceMessageLogId : Nat
deriving Repr, DecidableEq

/-- CommunityMember row (models.py). -/
structure CommunityMember where
  name : Option String
  phone : String
deriving Repr, DecidableEq

/-- EventRegistration row (models.py): (event_id, phone) is unique. -/
structure Registration where
  eventId : Nat
  phone : String
  name : Option String
deriving Repr, DecidableEq

/-- The persistent tables touched by the suppression engine. -/
structure SupState where
  unsubscribed : List Unsub
  suppressed : List Suppressed
  community : List CommunityMember
  registrations : List Registration
deriving Repr, DecidableEq

/-- Skip rule of process_failure_details: an entry is processed unless its
success flag is True, or it has no flag, no error text and no
failed/undelivered status. -/
def failDetailProcessed (d : FailDetail) : Bool :=
  match d.success with
  | some true => false
  | some false => true
  | none => d.error ≠ "" || d.status = some "failed" || d.status = some "undelivered"

/-- The opt_out upsert of process_failure_details on the unsubscribed
table: an existing row for the phone gets source message_failure, the new
reason when the error text is nonempty, and the detail name when it had
none; otherwise a new row is inserted. -/
def upsertUnsubFailure (tbl : List Unsub) (phone : String) (errorText : String)
    (name : Option String) : List Unsub :=
  if tbl.any (fun u => u.phone = phone) then
    tbl.map (fun u =>
      if u.phone = phone then
        { u with
          source := "message_failure"
          reason := if errorText ≠ "" then some errorText else u.reason
          name := if name.isSome && u.name.isNone then name else u.name }
      else u)
  else
    tbl ++ [{ name := name
              phone := phone
              reason := if errorText ≠ "" then some errorText else none
              source := "message_failure" }]

/-- The hard_fail upsert of process_failure_details on the suppressed
table. -/
def upsertSuppressedFailure (tbl : List Suppressed) (phone : String) (errorText : String)
    (srcLogId : Nat) : List Suppressed :=
  if tbl.any (fun u => u.phone = phone) then
    tbl.map (fun u =>
      if u.phone = phone then
        { u with
          reason := errorText
          category := "hard_fail"
          source := "message_failure"
          sourceType := "message_log"
          sourceMessageLogId := srcLogId }
      else u)
  else
    tbl ++ [{ phone := phone
              reason := errorText
              category := "hard_fail"
              source := "message_failure"
              sourceType := "message_log"
              sourceMessageLogId := srcLogId }]

/-- Processing of one failure detail: the per-entry body of the loop in
process_failure_details. Also accumulates the set of phones suppressed as
hard_fail during the run. -/
def processOneFailDetail (srcLogId : Nat) (acc : SupState × List String) (d : FailDetail) :
    SupState × List String :=
  let (st, hardPhones) := acc
  if ¬ failDetailProcessed d then (st, hardPhones)
  else
    let normalizedPhone := normalize_phone d.phone
    if normalizedPhone = "" then (st, hardPhones)
    else
      let category := classify_failure d.error
      if category = "opt_out" then
        ({ st with unsubscribed := upsertUnsubFailure st.unsubscribed normalizedPhone d.error d.name },
         hardPhones)
      else if category = "hard_fail" then
        ({ st with suppressed := upsertSuppressedFailure st.suppressed normalizedPhone d.error srcLogId },
         if hardPhones.contains normalizedPhone then hardPhones else hardPhones ++ [normalizedPhone])
      else (st, hardPhones)

/-- process_failure_details from suppression_service.py: iterate the
entries, upsert by normalized phone, then delete every community-member and
event-registration row whose phone was suppressed as hard_fail in this
run. Returns the new state and the accumulated hard_fail phone set. -/
def process_failure_details (st : SupState) (details : List FailDetail) (srcLogId : Nat) :
    SupState × List String :=
  let (st, hardPhones) := details.foldl (processOneFailDetail srcLogId) (st, [])
  let st :=
    if hardPhones = [] then st
    else
      { st with
        community := st.community.filter (fun c => ¬ hardPhones.contains c.phone)
        registrations := st.registrations.filter (fun r => ¬ hardPhones.contains r.phone) }
  (st, hardPhones)

/-! ## Outbound bulk dispatch (src/app/tasks.py) -/

/-- One per-recipient result entry of the provider bulk send; success is
absent on the synthetic error entries appended by _append_error_detail. -/
structure BulkDetail where
  phone : String
  name : Option String
  success : Option Bool
  error : Option String
deriving Repr, DecidableEq

/-- MessageLog (a DeliveryBatch) as touched by send_bulk_job. -/
structure MsgLog where
  details : List BulkDetail
  totalRecipients : Nat
  successCount : Nat
  failureCount : Nat
  status : String
deriving Repr, DecidableEq

/-- TwilioService.send_bulk on the success path: one provider call per
recipient in order; the provider outcome of the i-th call of this job is
given by the provider function. Returns the details together with the
success and failure counts. -/
def sendBulk (provider : Nat → Bool) (recipients : List Recipient) :
    List BulkDetail × Nat × Nat :=
  let details := (recipients.enum).map (fun ri =>
    { phone := ri.2.phone
      name := ri.2.name
      success := some (provider ri.1)
      error := if provider ri.1 then none else some "provider error" : BulkDetail })
  (details,
   (details.filter (fun d => d.success = some true)).length,
   (details.filter (fun d => d.success = some false)).length)

/-- send_bulk_job from tasks.py on the normal-completion path (no transient
provider abort, no unexpected exception): resume from the recorded details,
send only to the recipients beyond the resume cursor, combine counts and
set the terminal status. Also returns the list of recipients the provider
was called for. -/
def send_bulk_job (log : MsgLog) (recipientData : List Recipient) (provider : Nat → Bool) :
    MsgLog × List Recipient :=
  let existingDetails := log.details
  let existingSuccess := (existingDetails.filter (fun d => d.success = some true)).length
  let existingFailure := (existingDetails.filter (fun d => d.success = some false)).length
  let startIndex := existingDetails.length
  let remaining := recipientData.drop startIndex
  if remaining = [] then
    ({ log with
       totalRecipients := recipientData.length
       successCount := existingSuccess
       failureCount := existingFailure
       status := if existingFailure = 0 then "sent" else "failed" }, [])
  else
    let (newDetails, newSuccess, newFailure) := sendBulk provider remaining
    ({ log with
       details := existingDetails ++ newDetails
       totalRecipients := recipientData.length
       successCount := existingSuccess + newSuccess
       failureCount := existingFailure + newFailure
       status := if existingFailure + newFailure = 0 then "sent" else "failed" }, remaining)

/-! ## Scheduler claim step (src/app/services/scheduler_service.py) -/

/-- A ScheduledMessage row as seen by the claim step. -/
structure SchedRow where
  id : Nat
  status : String
deriving Repr, DecidableEq

/-- The atomic conditional claim of send_scheduled_messages: update the
rows with the given id whose status is pending to processing, returning the
new table and the number of rows changed. -/
def claimPending (rows : List SchedRow) (target : Nat) : List SchedRow × Nat :=
  let updated := (rows.filter (fun r => r.id = target && r.status = "pending")).length
  (rows.map (fun r =>
    if r.id = target && r.status = "pending" then { r with status := "processing" } else r),
   updated)

/-! ## Inbound automation engine (src/app/services/inbox_service.py) -/

def STOP_KEYWORDS : List String := ["STOP", "STOPALL", "UNSUBSCRIBE", "CANCEL", "END", "QUIT"]
def START_KEYWORDS : List String := ["START", "UNSTOP", "YES"]
def SURVEY_CANCEL_KEYWORDS : List String := ["CANCEL", "QUIT"]

def optOutConfirmationText : String :=
  "You are unsubscribed and will no longer receive SMS alerts. Reply START to resubscribe."
def surveyCancelledText : String :=
  "Survey cancelled. Text the survey keyword again anytime to restart."
def resubscribedText : String :=
  "You are resubscribed and can receive SMS alerts again."
def alreadySubscribedText : String :=
  "You are already subscribed and can receive SMS alerts."
def inboundStopReason : String := "Inbound STOP keyword received"

/-- InboxThread row (models.py); identified by its unique phone. -/
structure Thread where
  phone : String
  contactName : Option String
  unreadCount : Nat
  lastMessageAt : Nat
  lastMessagePreview : Option String
  lastDirection : Option String
deriving Repr, DecidableEq

/-- InboxMessage row (models.py). -/
structure Msg where
  threadPhone : String
  phone : String
  direction : String
  body : String
  messageSid : Option String
  automationSource : Option String
  automationSourceId : Option Nat
  matchedKeyword : Option String
  deliveryStatus : Option String
  deliveryError : Option String
  createdAt : Nat
deriving Repr, DecidableEq

/-- Modelled from the spec: the linkedEventId field is the SurveyFlow
column linked_event_id, added by migration 009 and used by routes.py and
the tests, but absent from the SurveyFlow class in models.py; the other
fields follow models.py (questions stands for the parsed questions_json
list). -/
structure Survey where
  id : Nat
  triggerKeyword : String
  introMessage : Option String
  questions : List String
  completionMessage : Option String
  isActive : Bool
  startCount : Nat
  completionCount : Nat
  linkedEventId : Option Nat
deriving Repr, DecidableEq

/-- SurveySession row (models.py). -/
structure Session where
  id : Nat
  surveyId : Nat
  phone : String
  status : String
  currentQuestionIndex : Nat
  startedAt : Nat
  lastActivityAt : Nat
  completedAt : Option Nat
deriving Repr, DecidableEq

/-- SurveyResponse row (models.py). -/
structure Response where
  sessionId : Nat
  surveyId : Nat
  phone : String
  questionIndex : Nat
  questionPrompt : String
  answer : String
deriving Repr, DecidableEq

/-- KeywordAutomationRule row (models.py). -/
structure Rule where
  id : Nat
  keyword : String
  responseBody : String
  isActive : Bool
  matchCount : Nat
  lastMatchedAt : Option Nat
deriving Repr, DecidableEq

/-- The persistent state touched by the inbound automation engine, together
with the auto-reply configuration flag. -/
structure EngineState where
  threads : List Thread
  messages : List Msg
  unsubscribed : List Unsub
  sessions : List Session
  surveys : List Survey
  rules : List Rule
  responses : List Response
  registrations : List Registration
  nextSessionId : Nat
  autoReplyEnabled : Bool
deriving Repr, DecidableEq

/-- The inbound webhook payload fields used by process_inbound_sms; a
missing form key is the empty string. -/
structure Payload where
  From : String
  Body : String
  MessageSid : String
  SmsSid : String
  ProfileName : String
deriving Repr, DecidableEq

/-- The dict returned by process_inbound_sms, with the reply bodies that
were handed to the automated-reply sender. -/
structure ProcessOut where
  status : String
  phone : String
  replies : List String
deriving Repr, DecidableEq

/-- Replace the element at an index (no effect when out of range). -/
def updateAt (l : List α) (i : Nat) (f : α → α) : List α :=
  match l, i with
  | [], _ => []
  | x :: xs, 0 => f x :: xs
  | x :: xs, n + 1 => x :: updateAt xs n f

/-- Is there a stored message carrying this provider message id. -/
def sidTaken (messages : List Msg) (sid : Option String) : Bool :=
  match sid with
  | some s => messages.any (fun m => m.messageSid = some s)
  | none => false

/-- _get_or_create_thread: find the thread by phone or create it; an
existing thread with no contact name picks up a nonempty profile name. -/
def getOrCreateThread (st : EngineState) (phone : String) (contactName : String) (now : Nat) :
    EngineState :=
  match st.threads.find? (fun t => t.phone = phone) with
  | none =>
    { st with threads := st.threads ++
        [{ phone := phone
           contactName := if pyStrip contactName = "" then none else some (pyStrip contactName)
           unreadCount := 0
           lastMessageAt := now
           lastMessagePreview := none
           lastDirection := none }] }
  | some t =>
    if contactName ≠ "" && (t.contactName.getD "") = "" then
      { st with threads := st.threads.map (fun t2 =>
          if t2.phone = phone then { t2 with contactName := some (pyStrip contactName) } else t2) }
    else st

/-- _append_inbox_message: a nonempty trimmed provider message id that is
already stored on some message is dropped (the message is stored with a
null id); the message is appended and the thread rollup fields updated,
bumping the unread count for inbound messages. -/
def appendInboxMessage (st : EngineState) (threadPhone phone direction body : String)
    (messageSid : Option String) (automationSource : Option String)
    (automationSourceId : Option Nat) (matchedKeyword : Option String)
    (deliveryStatus deliveryError : Option String) (now : Nat) : EngineState :=
  let resolvedSid :=
    match messageSid with
    | none => none
    | some s => if pyStrip s = "" then none else some (pyStrip s)
  let resolvedSid :=
    match resolvedSid with
    | some s => if st.messages.any (fun m => m.messageSid = some s) then none else some s
    | none => none
  { st with
    messages := st.messages ++
      [{ threadPhone := threadPhone
         phone := phone
         direction := direction
         body := body
         messageSid := resolvedSid
         automationSource := automationSource
         automationSourceId := automationSourceId
         matchedKeyword := matchedKeyword
         deliveryStatus := deliveryStatus
         deliveryError := deliveryError
         createdAt := now }]
    threads := st.threads.map (fun t =>
      if t.phone = threadPhone then
        { t with
          lastMessageAt := now
          lastMessagePreview := some (String.mk (body.data.take 180))
          lastDirection := some direction
          unreadCount := if direction = "inbound" then t.unreadCount + 1 else t.unreadCount }
      else t) }

/-- _send_automated_reply: an empty body is skipped; otherwise the outbound
message is recorded, with delivery status disabled when automated replies
are turned off by configuration (the provider call itself is abstracted as
succeeding). -/
def sendAutomatedReply (st : EngineState) (phone : String) (body : String) (source : String)
    (sourceId : Option Nat) (now : Nat) : EngineState :=
  let b := pyStrip body
  if b = "" then st
  else if st.autoReplyEnabled then
    appendInboxMessage st phone phone "outbound" b none (some source) sourceId none
      (some "sent") none now
  else
    appendInboxMessage st phone phone "outbound" b none (some source) sourceId none
      (some "disabled") (some "auto_reply_disabled") now

/-- Send a list of automated replies in order. -/
def sendReplies (st : EngineState) (phone : String) (replies : List String) (source : String)
    (sourceId : Option Nat) (now : Nat) : EngineState :=
  replies.foldl (fun acc r => sendAutomatedReply acc phone r source sourceId now) st

/-- _upsert_unsubscribed: update the existing row for the phone or insert a
new one with source inbound. -/
def upsertUnsubscribedInbound (tbl : List Unsub) (phone : String) (reason : String) : List Unsub :=
  if tbl.any (fun u => u.phone = phone) then
    tbl.map (fun u =>
      if u.phone = phone then
        { u with
          reason := if reason ≠ "" then some reason else u.reason
          source := "inbound" }
      else u)
  else
    tbl ++ [{ name := none
              phone := phone
              reason := if reason ≠ "" then some reason else none
              source := "inbound" }]

/-- _active_session: the active session for the phone with the latest
started_at. -/
def activeSession (sessions : List Session) (phone : String) : Option Session :=
  (sessions.filter (fun s => s.phone = phone && s.status = "active")).foldl
    (fun acc s =>
      match acc with
      | none => some s
      | some b => if b.startedAt < s.startedAt then some s else some b)
    none

/-- _cancel_active_sessions: every active session of the phone becomes
cancelled with completed_at and last_activity_at set to now. -/
def cancelActiveSessionsList (sessions : List Session) (phone : String) (now : Nat) :
    List Session :=
  sessions.map (fun s =>
    if s.phone = phone && s.status = "active" then
      { s with
        status := "cancelled"
        completedAt := some now
        lastActivityAt := now }
    else s)

/-- Cancel one session by id (the survey-cancel branch of
process_inbound_sms). -/
def cancelSessionById (sessions : List Session) (sessId : Nat) (now : Nat) : List Session :=
  sessions.map (fun s =>
    if s.id = sessId then
      { s with
        status := "cancelled"
        completedAt := some now
        lastActivityAt := now }
    else s)

/-- Modelled from the spec: the best available name from the answers, used
for the linked-event registration upsert on survey completion (this logic
is absent from the source tree; in the repository tests the first answer is
the registered name). It is the first answer of the session with nonempty
stripped text. -/
def bestAvailableName (responses : List Response) (sessId : Nat) : Option String :=
  match (responses.filter (fun r => r.sessionId = sessId)).find?
      (fun r => pyStrip r.answer ≠ "") with
  | some r => some (pyStrip r.answer)
  | none => none

/-- Modelled from the spec: create or update (by phone, upsert) a
registration record for the linked event; this registration write on
survey completion is absent from the source tree (only migration 009, the
routes and the tests refer to it). -/
def upsertRegistration (regs : List Registration) (ev : Nat) (phone : String)
    (name : Option String) : List Registration :=
  if regs.any (fun r => r.eventId = ev && r.phone = phone) then
    regs.map (fun r =>
      if r.eventId = ev && r.phone = phone then { r with name := name } else r)
  else
    regs ++ [{ eventId := ev, phone := phone, name := name }]

/-- _start_survey: cancel any active session for the phone, create the new
active session at question index 0 and bump the start counter; a survey
with no questions is completed immediately with its completion counter
bumped. Returns the new state and the reply bodies. -/
def startSurvey (st : EngineState) (survey : Survey) (phone : String) (now : Nat) :
    EngineState × List String :=
  let sessions := cancelActiveSessionsList st.sessions phone now
  let sessId := st.nextSessionId
  let noQuestions := survey.questions = []
  let newSession : Session :=
    { id := sessId
      surveyId := survey.id
      phone := phone
      status := if noQuestions then "completed" else "active"
      currentQuestionIndex := 0
      startedAt := now
      lastActivityAt := now
      completedAt := if noQuestions then some now else none }
  let surveys := st.surveys.map (fun sv =>
    if sv.id = survey.id then
      { sv with
        startCount := sv.startCount + 1
        completionCount := if noQuestions then sv.completionCount + 1 else sv.completionCount }
    else sv)
  let introReplies :=
    match survey.introMessage with
    | some m => if m ≠ "" then [pyStrip m] else []
    | none => []
  let tailReplies :=
    match survey.questions with
    | q :: _ => [q]
    | [] =>
      match survey.completionMessage with
      | some m => if m ≠ "" then [pyStrip m] else []
      | none => []
  ({ st with
     sessions := sessions ++ [newSession]
     surveys := surveys
     nextSessionId := sessId + 1 },
   introReplies ++ tailReplies)

/-- _advance_survey: record the inbound text as the answer to the current
question when one remains, advance the index, and either reply with the
next question or complete the session, bumping the completion counter and
replying with the completion message. On completion of a survey linked to
an external event the event registration is upserted by phone (that write
is modelled from the spec, see upsertRegistration). Returns the new state
and the reply bodies. -/
def advanceSurvey (st : EngineState) (sess : Session) (inboundText : String) (now : Nat) :
    EngineState × List String :=
  match st.surveys.find? (fun sv => sv.id = sess.surveyId) with
  | none => (st, [])
  | some survey =>
    let questions := survey.questions
    let idx0 := sess.currentQuestionIndex
    let st :=
      if idx0 < questions.length then
        { st with responses := st.responses ++
            [{ sessionId := sess.id
               surveyId := survey.id
               phone := sess.phone
               questionIndex := idx0
               questionPrompt := questions.getD idx0 ""
               answer := inboundText }] }
      else st
    let idx := if idx0 < questions.length then idx0 + 1 else idx0
    if idx < questions.length then
      ({ st with sessions := st.sessions.map (fun s =>
           if s.id = sess.id then
             { s with currentQuestionIndex := idx, lastActivityAt := now }
           else s) },
       [questions.getD idx ""])
    else
      let st :=
        { st with
          sessions := st.sessions.map (fun s =>
            if s.id = sess.id then
              { s with
                currentQuestionIndex := idx
                lastActivityAt := now
                status := "completed"
                completedAt := some now }
            else s)
          surveys := st.surveys.map (fun sv =>
            if sv.id = survey.id then { sv with completionCount := sv.completionCount + 1 }
            else sv) }
      let st :=
        match survey.linkedEventId with
        | some ev =>
          let regs := upsertRegistration st.registrations ev sess.phone
            (bestAvailableName st.responses sess.id)
          { st with registrations := regs }
        | none => st
      (st,
       match survey.completionMessage with
       | some m => if m ≠ "" then [pyStrip m] else []
       | none => [])

/-- The first candidate that is the trigger keyword of an active survey,
with that survey. -/
def findSurveyByCandidates (surveys : List Survey) : List String → Option (String × Survey)
  | [] => none
  | c :: rest =>
    match surveys.find? (fun sv => sv.triggerKeyword = c && sv.isActive) with
    | some sv => some (c, sv)
    | none => findSurveyByCandidates surveys rest

/-- The first candidate that is the keyword of an active rule, with that
rule. -/
def findRuleByCandidates (rules : List Rule) : List String → Option (String × Rule)
  | [] => none
  | c :: rest =>
    match rules.find? (fun r => r.keyword = c && r.isActive) with
    | some r => some (c, r)
    | none => findRuleByCandidates rules rest

/-- The priority-ordered dispatch of process_inbound_sms, applied after the
inbound message has been appended. Returns the new state, the result
status, the reply bodies and the matched keyword. -/
def dispatchInbound (st : EngineState) (phone inboundBody normalized : String)
    (session : Option Session) (now : Nat) :
    EngineState × String × List String × Option String :=
  if STOP_KEYWORDS.contains normalized then
    let st := { st with unsubscribed :=
        upsertUnsubscribedInbound st.unsubscribed phone inboundStopReason }
    let st := { st with sessions := cancelActiveSessionsList st.sessions phone now }
    let st := sendAutomatedReply st phone optOutConfirmationText "system" none now
    (st, "opt_out", [optOutConfirmationText], none)
  else
    match session with
    | some sess =>
      if SURVEY_CANCEL_KEYWORDS.contains normalized then
        let st := { st with sessions := cancelSessionById st.sessions sess.id now }
        let st := sendAutomatedReply st phone surveyCancelledText "survey" (some sess.surveyId) now
        (st, "survey_cancelled", [surveyCancelledText], none)
      else
        let matched := (st.surveys.find? (fun sv => sv.id = sess.surveyId)).map
          (fun sv => sv.triggerKeyword)
        let (st, replies) := advanceSurvey st sess inboundBody now
        let st := sendReplies st phone replies "survey" (some sess.surveyId) now
        (st, "survey_response", replies, matched)
    | none =>
      if START_KEYWORDS.contains normalized then
        let wasUnsubscribed := st.unsubscribed.any (fun u => u.phone = phone)
        let st := { st with unsubscribed := st.unsubscribed.filter (fun u => u.phone ≠ phone) }
        let reply := if wasUnsubscribed then resubscribedText else alreadySubscribedText
        let st := sendAutomatedReply st phone reply "system" none now
        (st, "opt_in", [reply], none)
      else
        let candidates := keyword_candidates inboundBody
        match findSurveyByCandidates st.surveys candidates with
        | some (candidate, survey) =>
          let (st, replies) := startSurvey st survey phone now
          let st := sendReplies st phone replies "survey" (some survey.id) now
          (st, "survey_started", replies, some candidate)
        | none =>
          match findRuleByCandidates st.rules candidates with
          | some (candidate, rule) =>
            let st := { st with rules := st.rules.map (fun r =>
                if r.id = rule.id then
                  { r with matchCount := r.matchCount + 1, lastMatchedAt := some now }
                else r) }
            let st := sendAutomatedReply st phone rule.responseBody "keyword" (some rule.id) now
            (st, "keyword_reply", [rule.responseBody], some candidate)
          | none => (st, "stored", [], none)

/-- The provider message id of a payload: MessageSid, falling back to
SmsSid, stripped, empty treated as absent. -/
def resolvedPayloadSid (payload : Payload) : Option String :=
  let sidSource := if payload.MessageSid ≠ "" then payload.MessageSid else payload.SmsSid
  if pyStrip sidSource = "" then none else some (pyStrip sidSource)

/-- process_inbound_sms from inbox_service.py: normalize and validate the
sender, de-duplicate by provider message id, record the inbound message,
run the priority-ordered dispatch, and stamp the matched keyword on the
inbound message. -/
def process_inbound_sms (st : EngineState) (payload : Payload) (now : Nat) :
    EngineState × ProcessOut :=
  let rawFrom := pyStrip payload.From
  let inboundBody := pyStrip payload.Body
  let messageSid := resolvedPayloadSid payload
  if rawFrom = "" then (st, { status := "ignored", phone := "", replies := [] })
  else
    let phone := normalize_phone rawFrom
    if ¬ validate_phone phone then (st, { status := "ignored", phone := phone, replies := [] })
    else if sidTaken st.messages messageSid then
      (st, { status := "duplicate", phone := phone, replies := [] })
    else
      let st1 := getOrCreateThread st phone (pyStrip payload.ProfileName) now
      let inboundIdx := st1.messages.length
      let st2 := appendInboxMessage st1 phone phone "inbound" inboundBody messageSid
        none none none none none now
      let normalized := normalize_keyword inboundBody
      let session := activeSession st2.sessions phone
      let out := dispatchInbound st2 phone inboundBody normalized session now
      let st3 := out.1
      let matchedKeyword := out.2.2.2
      let st4 :=
        match matchedKeyword with
        | some mk =>
          let msgs := updateAt st3.messages inboundIdx
            (fun m => { m with matchedKeyword := some mk })
          { st3 with messages := msgs }
        | none => st3
      (st4, { status := out.2.1, phone := phone, replies := out.2.2.1 })

/-! ## Shared helper lemmas -/

theorem filter_partition_length (l : List α) (p : α → Bool) :
    (l.filter (fun a => ! p a)).length + (l.filter p).length = l.length := by
  induction l with
  | nil => rfl
  | cons x xs ih =>
    by_cases hx : p x = true <;> simp [List.filter_cons, hx, ← ih] <;> omega

/-! ## Claim C4: normalize_keyword -/

/-- Claim C4: normalize_keyword upper-cases its input, collapses every
whitespace run (including tabs and newlines) to a single space, and trims
leading and trailing whitespace; in particular the spec examples
normalize_keyword of " join   now " is "JOIN NOW" and the empty string
normalizes to itself. -/
theorem claim_C4_normalize_keyword :
    normalize_keyword " join   now " = "JOIN NOW" ∧
    normalize_keyword "" = "" ∧
    normalize_keyword "a\t\nb \t c" = "A B C" ∧
    normalize_keyword "\t hello\nworld \n" = "HELLO WORLD" ∧
    normalize_keyword "MiXeD case" = "MIXED CASE" := by
  decide

/-! ## Claim C9: classify_failure -/

/-- Claim C9: classify_failure tests the lower-cased error text against the
opt-out pattern set first, then the hard-failure set, then the soft-failure
set, returning the category of the first matching set and soft_fail when
none matches (so a text matching both opt-out and hard-fail patterns is
opt_out); with the spec examples for the three categories and the empty
text. -/
theorem claim_C9_classify_failure :
    classify_failure "Reply STOP to opt out" = "opt_out" ∧
    classify_failure "Carrier violation: 30005" = "hard_fail" ∧
    classify_failure "Service unavailable: 503" = "soft_fail" ∧
    classify_failure "" = "soft_fail" ∧
    classify_failure "some completely unmatched text" = "soft_fail" ∧
    (∀ e : String, matchesAnyPattern opt_out_patterns (pyLower e) = true →
      classify_failure e = "opt_out") ∧
    (∀ e : String, matchesAnyPattern opt_out_patterns (pyLower e) = false →
      matchesAnyPattern hard_fail_patterns (pyLower e) = true →
      classify_failure e = "hard_fail") ∧
    (∀ e : String, matchesAnyPattern opt_out_patterns (pyLower e) = false →
      matchesAnyPattern hard_fail_patterns (pyLower e) = false →
      classify_failure e = "soft_fail") := by
  refine ⟨by decide, by decide, by decide, by decide, by decide, ?_, ?_, ?_⟩
  · intro e h
    by_cases he : e = ""
    · rw [he] at h; exact absurd h (by decide)
    · simp [classify_failure, he, h]
  · intro e h1 h2
    by_cases he : e = ""
    · rw [he] at h2; exact absurd h2 (by decide)
    · simp [classify_failure, he, h1, h2]
  · intro e h1 h2
    by_cases he : e = ""
    · simp [classify_failure, he]
    · by_cases h3 : matchesAnyPattern soft_fail_patterns (pyLower e) = true <;>
        simp [classify_failure, he, h1, h2, h3]

/-- Witness for claim C9: the priority conjuncts applied at concrete error
texts. -/
theorem claim_C9_classify_failure_witness :
    (matchesAnyPattern opt_out_patterns (pyLower "User has unsubscribed; number invalid") = true ∧
      classify_failure "User has unsubscribed; number invalid" = "opt_out") ∧
    (matchesAnyPattern opt_out_patterns (pyLower "number is invalid") = false ∧
      matchesAnyPattern hard_fail_patterns (pyLower "number is invalid") = true ∧
      classify_failure "number is invalid" = "hard_fail") ∧
    (matchesAnyPattern opt_out_patterns (pyLower "odd text") = false ∧
      matchesAnyPattern hard_fail_patterns (pyLower "odd text") = false ∧
      classify_failure "odd text" = "soft_fail") :=
  ⟨⟨by decide, claim_C9_classify_failure.2.2.2.2.2.1 "User has unsubscribed; number invalid" (by decide)⟩,
   ⟨by decide, by decide,
    claim_C9_classify_failure.2.2.2.2.2.2.1 "number is invalid" (by decide) (by decide)⟩,
   ⟨by decide, by decide,
    claim_C9_classify_failure.2.2.2.2.2.2.2 "odd text" (by decide) (by decide)⟩⟩

/-! ## Claim C2: recipient filters and phone normalization -/

/-- Counterexample for claim C2 as stated: with +17203832388 in the
unsubscribed table, a recipient whose raw phone is 720-383-2388 (which
normalizes to +17203832388) is NOT removed by the filter: the filter looks
the raw phone value up without normalizing it, so the removed list is
empty and the recipient is kept. -/
theorem claim_C2_counterexample :
    normalize_phone "720-383-2388" = "+17203832388" ∧
    (filter_recipients_by_table ["+17203832388"]
      [{ name := some "Alex", phone := "720-383-2388" }]).2.1 = [] ∧
    (filter_recipients_by_table ["+17203832388"]
      [{ name := some "Alex", phone := "720-383-2388" }]).1 =
      [{ name := some "Alex", phone := "720-383-2388" }] := by
  decide

theorem mem_suppression_phone_set (table phones : List String) (p : String) :
    p ∈ get_suppression_phone_set table phones ↔
      p ∈ table ∧ p ∈ phones ∧ p ≠ "" := by
  simp only [get_suppression_phone_set]
  by_cases h : phones.filter (fun q => q ≠ "") = []
  · simp only [h, ite_true, List.not_mem_nil, false_iff]
    rintro ⟨-, hp, hne⟩
    have hx : p ∈ phones.filter (fun q => q ≠ "") := by
      rw [List.mem_filter]; exact ⟨hp, by simpa using hne⟩
    rw [h] at hx
    exact absurd hx (List.not_mem_nil p)
  · rw [if_neg h]
    simp [List.mem_filter, and_assoc]

/-- Amended claim C2: the filters partition the recipient list into (kept,
removed) by EXACT phone-string membership in the suppression table (no
phone normalization is applied by the filter; callers are expected to pass
already-normalized phones): a recipient is removed iff its phone value,
as given, is nonempty and is the phone of some suppression record. -/
theorem claim_C2_amended (table : List String) (recipients : List Recipient) (r : Recipient) :
    (r ∈ (filter_recipients_by_table table recipients).2.1 ↔
      r ∈ recipients ∧ r.phone ≠ "" ∧ r.phone ∈ table) ∧
    (r ∈ (filter_recipients_by_table table recipients).1 ↔
      r ∈ recipients ∧ ¬(r.phone ≠ "" ∧ r.phone ∈ table)) ∧
    (filter_recipients_by_table table recipients).1.length +
      (filter_recipients_by_table table recipients).2.1.length = recipients.length := by
  have key : ∀ x : Recipient, x ∈ recipients →
      ((get_suppression_phone_set table
          ((recipients.map (fun q => q.phone)).filter (fun p => p ≠ ""))).contains x.phone = true ↔
        (x.phone ≠ "" ∧ x.phone ∈ table)) := by
    intro x hx
    constructor
    · intro hc
      have hmem : x.phone ∈ get_suppression_phone_set table
          ((recipients.map (fun q => q.phone)).filter (fun p => p ≠ "")) := by
        simpa using hc
      rw [mem_suppression_phone_set] at hmem
      exact ⟨hmem.2.2, hmem.1⟩
    · rintro ⟨hne, htab⟩
      have hmem : x.phone ∈ get_suppression_phone_set table
          ((recipients.map (fun q => q.phone)).filter (fun p => p ≠ "")) := by
        rw [mem_suppression_phone_set]
        refine ⟨htab, ?_, hne⟩
        rw [List.mem_filter]
        exact ⟨List.mem_map_of_mem _ hx, by simpa using hne⟩
      simpa using hmem
  simp only [filter_recipients_by_table]
  by_cases hm : get_suppression_phone_set table
      ((recipients.map (fun q => q.phone)).filter (fun p => p ≠ "")) = []
  · simp only [hm, ite_true]
    refine ⟨?_, ?_, by simp⟩
    · simp only [List.not_mem_nil, false_iff]
      rintro ⟨hr, hne, htab⟩
      have hc := (key r hr).mpr ⟨hne, htab⟩
      rw [hm] at hc
      simp at hc
    · constructor
      · intro hr
        refine ⟨hr, ?_⟩
        rintro ⟨hne, htab⟩
        have hc := (key r hr).mpr ⟨hne, htab⟩
        rw [hm] at hc
        simp at hc
      · rintro ⟨hr, -⟩; exact hr
  · rw [if_neg hm]
    refine ⟨?_, ?_, filter_partition_length recipients _⟩
    · rw [List.mem_filter]
      constructor
      · rintro ⟨hr, hc⟩
        exact ⟨hr, ((key r hr).mp hc).1, ((key r hr).mp hc).2⟩
      · rintro ⟨hr, hne, htab⟩
        exact ⟨hr, (key r hr).mpr ⟨hne, htab⟩⟩
    · rw [List.mem_filter]
      constructor
      · rintro ⟨hr, hc⟩
        refine ⟨hr, ?_⟩
        rintro ⟨hne, htab⟩
        rw [(key r hr).mpr ⟨hne, htab⟩] at hc
        simp at hc
      · rintro ⟨hr, hni⟩
        refine ⟨hr, ?_⟩
        by_cases hc : (get_suppression_phone_set table
            ((recipients.map (fun q => q.phone)).filter (fun p => p ≠ ""))).contains r.phone = true
        · exact absurd ((key r hr).mp hc) hni
        · simp only [Bool.not_eq_true] at hc
          show (!(get_suppression_phone_set table
              ((recipients.map (fun q => q.phone)).filter (fun p => p ≠ ""))).contains r.phone) = true
          rw [hc]
          rfl

/-! ## Claim C6: the scheduler claim step -/

theorem claimPending_id_preserved (target : Nat) (x : SchedRow) :
    ((fun r => if r.id = target && r.status = "pending" then
        { r with status := "processing" } else r) x).id = x.id := by
  by_cases h : (x.id = target && x.status = "pending") = true <;> simp [h]

theorem filter_id_then_status (l : List SchedRow) (target : Nat) :
    l.filter (fun x => x.id = target && x.status = "pending") =
    (l.filter (fun x => x.id = target)).filter (fun x => x.status = "pending") := by
  rw [List.filter_filter]
  apply List.filter_congr
  intro x _
  exact Bool.and_comm _ _

theorem filter_map_of_pred_preserved {α : Type} (f : α → α) (p : α → Bool)
    (hf : ∀ x, p (f x) = p x) (l : List α) :
    (l.map f).filter p = (l.filter p).map f := by
  induction l with
  | nil => rfl
  | cons y ys ih =>
    simp only [List.map_cons, List.filter_cons, hf y]
    by_cases h : p y = true <;> simp [h, ih]

theorem claimPending_map_filter (rows : List SchedRow) (target : Nat) :
    ((rows.map (fun r => if r.id = target && r.status = "pending" then
        { r with status := "processing" } else r)).filter (fun x => x.id = target)) =
    ((rows.filter (fun x => x.id = target)).map (fun r =>
      if r.id = target && r.status = "pending" then { r with status := "processing" } else r)) := by
  apply filter_map_of_pred_preserved
  intro x
  rw [show ((fun r : SchedRow => if r.id = target && r.status = "pending" then
      { r with status := "processing" } else r) x).id = x.id from claimPending_id_preserved target x]

/-- Claim C6: the conditional update set status to processing where id is
the target and status is pending succeeds (changes one row) iff the row
was pending at that moment; a loser changes zero rows and leaves the table
untouched, and after a successful claim a second serialized claim attempt
for the same id changes zero rows and leaves the table untouched, so at
most one caller ever takes a given ScheduledSend to processing. -/
theorem claim_C6_scheduler_claim (rows : List SchedRow) (target : Nat) (r : SchedRow)
    (hr : rows.filter (fun x => x.id = target) = [r]) :
    ((claimPending rows target).2 = 1 ↔ r.status = "pending") ∧
    (r.status ≠ "pending" → (claimPending rows target).2 = 0 ∧ (claimPending rows target).1 = rows) ∧
    (r.status = "pending" →
      ((claimPending rows target).1.filter (fun x => x.id = target) =
        [{ r with status := "processing" }]) ∧
      (claimPending (claimPending rows target).1 target).2 = 0 ∧
      (claimPending (claimPending rows target).1 target).1 = (claimPending rows target).1) := by
  have hrmem : r ∈ rows ∧ r.id = target := by
    have : r ∈ rows.filter (fun x => x.id = target) := by rw [hr]; exact List.mem_singleton.mpr rfl
    have h2 := List.mem_filter.mp this
    exact ⟨h2.1, by simpa using h2.2⟩
  have huniq : ∀ x ∈ rows, x.id = target → x = r := by
    intro x hx hid
    have : x ∈ rows.filter (fun y => y.id = target) :=
      List.mem_filter.mpr ⟨hx, by simpa using hid⟩
    rw [hr] at this
    exact List.mem_singleton.mp this
  have hq : rows.filter (fun x => x.id = target && x.status = "pending") =
      if r.status = "pending" then [r] else [] := by
    rw [filter_id_then_status, hr]
    by_cases hs : r.status = "pending" <;> simp [List.filter_cons, hs]
  refine ⟨?_, ?_, ?_⟩
  · simp only [claimPending, hq]
    by_cases hs : r.status = "pending" <;> simp [hs]
  · intro hs
    constructor
    · simp only [claimPending, hq]
      simp [hs]
    · simp only [claimPending]
      have hfix : ∀ x ∈ rows, (fun y : SchedRow =>
          if y.id = target && y.status = "pending" then
            { y with status := "processing" } else y) x = id x := by
        intro x hx
        by_cases hid : x.id = target
        · have hxr := huniq x hx hid
          subst hxr
          simp [hs]
        · simp [hid]
      exact (List.map_congr_left hfix).trans (List.map_id rows)
  · intro hs
    have hfr : (fun x : SchedRow => if x.id = target && x.status = "pending" then
        { x with status := "processing" } else x) r = { r with status := "processing" } := by
      simp [hrmem.2, hs]
    have hmapped : (claimPending rows target).1.filter (fun x => x.id = target) =
        [{ r with status := "processing" }] := by
      simp only [claimPending]
      rw [claimPending_map_filter, hr]
      simp only [List.map_cons, List.map_nil, hfr]
    refine ⟨hmapped, ?_, ?_⟩
    · have hzero : (claimPending rows target).1.filter
          (fun x => x.id = target && x.status = "pending") = [] := by
        rw [filter_id_then_status, hmapped]
        simp [List.filter_cons]
      show ((claimPending rows target).1.filter
          (fun x => x.id = target && x.status = "pending")).length = 0
      rw [hzero]
      rfl
    · show (claimPending rows target).1.map (fun y : SchedRow =>
          if y.id = target && y.status = "pending" then
            { y with status := "processing" } else y) = (claimPending rows target).1
      have hfix : ∀ x ∈ (claimPending rows target).1, (fun y : SchedRow =>
          if y.id = target && y.status = "pending" then
            { y with status := "processing" } else y) x = id x := by
        intro x hx
        by_cases hid : x.id = target
        · have : x ∈ (claimPending rows target).1.filter (fun z => z.id = target) :=
            List.mem_filter.mpr ⟨hx, by simpa using hid⟩
          rw [hmapped] at this
          have hx2 := List.mem_singleton.mp this
          subst hx2
          simp
        · simp [hid]
      exact (List.map_congr_left hfix).trans (List.map_id _)

/-- Witness for claim C6 at a concrete one-row table. -/
theorem claim_C6_scheduler_claim_witness :
    ([({ id := 1, status := "pending" } : SchedRow)].filter (fun x => x.id = 1) =
      [({ id := 1, status := "pending" } : SchedRow)]) ∧
    ((claimPending [({ id := 1, status := "pending" } : SchedRow)] 1).2 = 1 ↔
      ({ id := 1, status := "pending" } : SchedRow).status = "pending") :=
  ⟨by decide,
   (claim_C6_scheduler_claim [{ id := 1, status := "pending" }] 1
      { id := 1, status := "pending" } (by decide)).1⟩

/-! ## Claim C5: the bulk dispatch job resume contract -/

theorem bulk_count_split (l : List BulkDetail)
    (h : ∀ d ∈ l, d.success = some true ∨ d.success = some false) :
    (l.filter (fun d => d.success = some true)).length +
      (l.filter (fun d => d.success = some false)).length = l.length := by
  induction l with
  | nil => rfl
  | cons x xs ih =>
    have hx := h x (List.mem_cons_self _ _)
    have hxs : ∀ d ∈ xs, d.success = some true ∨ d.success = some false :=
      fun d hd => h d (List.mem_cons_of_mem _ hd)
    have := ih hxs
    rcases hx with hx | hx <;> simp [List.filter_cons, hx] <;> omega

theorem sendBulk_details_definite (provider : Nat → Bool) (recipients : List Recipient) :
    ∀ d ∈ (sendBulk provider recipients).1,
      d.success = some true ∨ d.success = some false := by
  intro d hd
  simp only [sendBulk] at hd
  rw [List.mem_map] at hd
  rcases hd with ⟨ri, _, rfl⟩
  by_cases hp : provider ri.1 = true
  · left; rw [hp]
  · right
    rw [Bool.not_eq_true] at hp
    rw [hp]

theorem sendBulk_counts (provider : Nat → Bool) (recipients : List Recipient) :
    (sendBulk provider recipients).2.1 + (sendBulk provider recipients).2.2 =
      recipients.length := by
  have h := bulk_count_split (sendBulk provider recipients).1
    (sendBulk_details_definite provider recipients)
  have hlen : (sendBulk provider recipients).1.length = recipients.length := by
    simp [sendBulk]
  calc (sendBulk provider recipients).2.1 + (sendBulk provider recipients).2.2
      = (sendBulk provider recipients).1.length := h
    _ = recipients.length := hlen

/-- Claim C5: send_bulk_job resumes from the recorded details, calling the
provider exactly for the recipients beyond the resume cursor (none before
it, zero calls once the cursor reaches the end); on normal completion total
is the full recipient count, the success and failure counts are the
previously recorded ones plus those of the new attempts (every recipient
counted exactly once), and the status is sent exactly when the failure
count is zero. -/
theorem claim_C5_send_bulk_job (log : MsgLog) (recipientData : List Recipient)
    (provider : Nat → Bool)
    (hdef : ∀ d ∈ log.details, d.success = some true ∨ d.success = some false)
    (hn : log.details.length ≤ recipientData.length) :
    ((send_bulk_job log recipientData provider).2 =
      recipientData.drop log.details.length) ∧
    (recipientData.length ≤ log.details.length →
      (send_bulk_job log recipientData provider).2 = []) ∧
    ((send_bulk_job log recipientData provider).1.totalRecipients = recipientData.length) ∧
    ((send_bulk_job log recipientData provider).1.successCount =
      (log.details.filter (fun d => d.success = some true)).length +
      (sendBulk provider (recipientData.drop log.details.length)).2.1) ∧
    ((send_bulk_job log recipientData provider).1.failureCount =
      (log.details.filter (fun d => d.success = some false)).length +
      (sendBulk provider (recipientData.drop log.details.length)).2.2) ∧
    ((send_bulk_job log recipientData provider).1.successCount +
      (send_bulk_job log recipientData provider).1.failureCount = recipientData.length) ∧
    ((send_bulk_job log recipientData provider).1.status =
      if (send_bulk_job log recipientData provider).1.failureCount = 0
      then "sent" else "failed") := by
  have hsplit := bulk_count_split log.details hdef
  by_cases hrem : recipientData.drop log.details.length = []
  · have hlen : recipientData.length ≤ log.details.length := List.drop_eq_nil_iff.mp hrem
    have hEq : recipientData.length = log.details.length := le_antisymm hlen hn
    have hz1 : (sendBulk provider ([] : List Recipient)).2.1 = 0 := rfl
    have hz2 : (sendBulk provider ([] : List Recipient)).2.2 = 0 := rfl
    simp only [send_bulk_job]
    rw [if_pos hrem]
    refine ⟨hrem.symm, fun _ => rfl, rfl, ?_, ?_, ?_, rfl⟩
    · rw [hrem, hz1]
      simp
    · rw [hrem, hz2]
      simp
    · show (log.details.filter (fun d => d.success = some true)).length +
        (log.details.filter (fun d => d.success = some false)).length = recipientData.length
      rw [hEq]
      exact hsplit
  · rcases hsb : sendBulk provider (recipientData.drop log.details.length) with ⟨nd, ns, nf⟩
    have hcounts := sendBulk_counts provider (recipientData.drop log.details.length)
    rw [hsb] at hcounts
    simp only at hcounts
    have hdlen : (recipientData.drop log.details.length).length =
        recipientData.length - log.details.length := List.length_drop _ _
    simp only [send_bulk_job]
    rw [if_neg hrem, hsb]
    refine ⟨rfl, ?_, rfl, rfl, rfl, ?_, rfl⟩
    · intro hle
      exact absurd (List.drop_eq_nil_iff.mpr hle) hrem
    · show (log.details.filter (fun d => d.success = some true)).length + ns +
        ((log.details.filter (fun d => d.success = some false)).length + nf) =
        recipientData.length
      omega

/-- Witness for claim C5: a batch with one recorded success resumed over
three recipients. -/
theorem claim_C5_send_bulk_job_witness :
    ((send_bulk_job
        { details := [{ phone := "+15550000001", name := none, success := some true, error := none }]
          totalRecipients := 0, successCount := 0, failureCount := 0, status := "processing" }
        [{ name := none, phone := "+15550000001" },
         { name := none, phone := "+15550000002" },
         { name := none, phone := "+15550000003" }]
        (fun i => i = 0)).2 =
      [{ name := none, phone := "+15550000002" },
       { name := none, phone := "+15550000003" }]) :=
  (claim_C5_send_bulk_job
    { details := [{ phone := "+15550000001", name := none, success := some true, error := none }]
      totalRecipients := 0, successCount := 0, failureCount := 0, status := "processing" }
    [{ name := none, phone := "+15550000001" },
     { name := none, phone := "+15550000002" },
     { name := none, phone := "+15550000003" }]
    (fun i => i = 0)
    (by decide) (by decide)).1

/-! ## Claim C10: message append, sid de-duplication and the sid
uniqueness invariant -/

theorem getLast?_append_singleton {α : Type} (l : List α) (a : α) :
    (l ++ [a]).getLast? = some a := by
  induction l with
  | nil => rfl
  | cons x xs ih =>
    rw [List.cons_append, List.getLast?_cons]
    rw [ih]
    simp

theorem nodup_sids_append (msgs : List Msg) (m : Msg)
    (h : ((msgs.filterMap (fun x => x.messageSid))).Nodup)
    (hm : m.messageSid = none ∨ ∀ x ∈ msgs, x.messageSid ≠ m.messageSid) :
    (((msgs ++ [m]).filterMap (fun x => x.messageSid))).Nodup := by
  rw [List.filterMap_append]
  rcases hm with hm | hm
  · simp [List.filterMap, hm, h]
  · rcases hsid : m.messageSid with _ | s
    · simp [List.filterMap, hsid, h]
    · rw [List.nodup_append]
      refine ⟨h, by simp [List.filterMap, hsid], ?_⟩
      intro x hx hx2
      simp only [List.filterMap, hsid] at hx2
      have hxs : x = s := by simpa using hx2
      subst hxs
      rw [List.mem_filterMap] at hx
      rcases hx with ⟨a, ha, ha2⟩
      exact hm a ha (by rw [ha2, hsid])

/-- Claim C10: appending a message whose provider message id is already
stored does not fail and does not drop the message: it is stored with a
null id and the thread rollup (timestamp, preview, direction, inbound
unread bump) is still updated; and for any append, uniqueness of the
non-null stored provider message ids is preserved. -/
theorem claim_C10_append_inbox_message (st : EngineState)
    (threadPhone phone direction body sid : String) (auto : Option String)
    (autoId : Option Nat) (mk ds de : Option String) (now : Nat)
    (hsid : pyStrip sid ≠ "")
    (hdup : st.messages.any (fun m => m.messageSid = some (pyStrip sid)) = true) :
    ((appendInboxMessage st threadPhone phone direction body (some sid)
        auto autoId mk ds de now).messages.length = st.messages.length + 1) ∧
    ((appendInboxMessage st threadPhone phone direction body (some sid)
        auto autoId mk ds de now).messages.getLast?.map (fun m => m.messageSid) =
      some none) ∧
    (∀ t ∈ st.threads, t.phone = threadPhone →
      ({ t with
          lastMessageAt := now
          lastMessagePreview := some (String.mk (body.data.take 180))
          lastDirection := some direction
          unreadCount := if direction = "inbound" then t.unreadCount + 1 else t.unreadCount }
        ∈ (appendInboxMessage st threadPhone phone direction body (some sid)
            auto autoId mk ds de now).threads)) ∧
    (∀ sid2 : Option String,
      ((st.messages.filterMap (fun m => m.messageSid))).Nodup →
      (((appendInboxMessage st threadPhone phone direction body sid2
          auto autoId mk ds de now).messages.filterMap (fun m => m.messageSid))).Nodup) := by
  refine ⟨?_, ?_, ?_, ?_⟩
  · simp only [appendInboxMessage, hsid, hdup]
    simp
  · simp only [appendInboxMessage, hsid, hdup]
    rw [getLast?_append_singleton]
    simp [hdup]
  · intro t ht hphone
    simp only [appendInboxMessage]
    refine List.mem_map.mpr ⟨t, ht, ?_⟩
    rw [if_pos hphone]
  · intro sid2 hnd
    rcases sid2 with _ | s
    · simp only [appendInboxMessage]
      exact nodup_sids_append _ _ hnd (Or.inl rfl)
    · by_cases h1 : pyStrip s = ""
      · simp only [appendInboxMessage, h1, ite_true]
        exact nodup_sids_append _ _ hnd (Or.inl rfl)
      · by_cases h2 : st.messages.any (fun m => m.messageSid = some (pyStrip s)) = true
        · simp only [appendInboxMessage, h1, h2, ite_false, ite_true]
          exact nodup_sids_append _ _ hnd (Or.inl rfl)
        · simp only [appendInboxMessage, h1, h2, ite_false]
          apply nodup_sids_append _ _ hnd
          right
          intro x hx hcontra
          rw [Bool.not_eq_true, List.any_eq_false] at h2
          have hne := h2 x hx
          simp only [decide_eq_true_eq] at hne
          apply hne
          simpa using hcontra

/-- Witness for claim C10: appending a message that reuses the stored sid
SM-1 still stores a new message. -/
theorem claim_C10_append_inbox_message_witness :
    (appendInboxMessage
      { threads := []
        messages := [{ threadPhone := "+15551230001", phone := "+15551230001",
                       direction := "inbound", body := "x", messageSid := some "SM-1",
                       automationSource := none, automationSourceId := none,
                       matchedKeyword := none, deliveryStatus := none, deliveryError := none,
                       createdAt := 1 }]
        unsubscribed := [], sessions := [], surveys := [], rules := [], responses := []
        registrations := [], nextSessionId := 0, autoReplyEnabled := true }
      "+15551230001" "+15551230001" "inbound" "y" (some "SM-1")
      none none none none none 2).messages.length = 1 + 1 :=
  (claim_C10_append_inbox_message
    { threads := []
      messages := [{ threadPhone := "+15551230001", phone := "+15551230001",
                     direction := "inbound", body := "x", messageSid := some "SM-1",
                     automationSource := none, automationSourceId := none,
                     matchedKeyword := none, deliveryStatus := none, deliveryError := none,
                     createdAt := 1 }]
      unsubscribed := [], sessions := [], surveys := [], rules := [], responses := []
      registrations := [], nextSessionId := 0, autoReplyEnabled := true }
    "+15551230001" "+15551230001" "inbound" "y" "SM-1"
    none none none none none 2 (by decide) (by decide)).1

/-! ## Claim C8: the suppression engine -/

theorem processOne_community (srcLogId : Nat) (acc : SupState × List String) (d : FailDetail) :
    (processOneFailDetail srcLogId acc d).1.community = acc.1.community := by
  rcases acc with ⟨st, hp⟩
  by_cases h1 : failDetailProcessed d = true
  · by_cases h2 : normalize_phone d.phone = ""
    · simp [processOneFailDetail, h1, h2]
    · by_cases h3 : classify_failure d.error = "opt_out"
      · simp [processOneFailDetail, h1, h2, h3]
      · by_cases h4 : classify_failure d.error = "hard_fail"
        · simp [processOneFailDetail, h1, h2, h3, h4]
        · simp [processOneFailDetail, h1, h2, h3, h4]
  · simp [processOneFailDetail, h1]

theorem processOne_registrations (srcLogId : Nat) (acc : SupState × List String) (d : FailDetail) :
    (processOneFailDetail srcLogId acc d).1.registrations = acc.1.registrations := by
  rcases acc with ⟨st, hp⟩
  by_cases h1 : failDetailProcessed d = true
  · by_cases h2 : normalize_phone d.phone = ""
    · simp [processOneFailDetail, h1, h2]
    · by_cases h3 : classify_failure d.error = "opt_out"
      · simp [processOneFailDetail, h1, h2, h3]
      · by_cases h4 : classify_failure d.error = "hard_fail"
        · simp [processOneFailDetail, h1, h2, h3, h4]
        · simp [processOneFailDetail, h1, h2, h3, h4]
  · simp [processOneFailDetail, h1]

theorem upsertUnsubFailure_phones (tbl : List Unsub) (phone err : String) (name : Option String) :
    (upsertUnsubFailure tbl phone err name).map (fun u => u.phone) =
      if tbl.any (fun u => u.phone = phone) then tbl.map (fun u => u.phone)
      else tbl.map (fun u => u.phone) ++ [phone] := by
  unfold upsertUnsubFailure
  by_cases h : tbl.any (fun u => u.phone = phone) = true
  · rw [if_pos h, if_pos h, List.map_map]
    apply List.map_congr_left
    intro u _
    by_cases hup : u.phone = phone <;> simp [hup]
  · rw [if_neg h, if_neg h]
    simp

theorem upsertSuppressedFailure_phones (tbl : List Suppressed) (phone err : String)
    (srcLogId : Nat) :
    (upsertSuppressedFailure tbl phone err srcLogId).map (fun u => u.phone) =
      if tbl.any (fun u => u.phone = phone) then tbl.map (fun u => u.phone)
      else tbl.map (fun u => u.phone) ++ [phone] := by
  unfold upsertSuppressedFailure
  by_cases h : tbl.any (fun u => u.phone = phone) = true
  · rw [if_pos h, if_pos h, List.map_map]
    apply List.map_congr_left
    intro u _
    by_cases hup : u.phone = phone <;> simp [hup]
  · rw [if_neg h, if_neg h]
    simp

theorem phones_append_nodup {α : Type} (tbl : List α) (f : α → String) (phone : String)
    (hnd : (tbl.map f).Nodup) (habs : tbl.any (fun u => f u = phone) = false) :
    ((tbl.map f) ++ [phone]).Nodup := by
  rw [List.nodup_append]
  refine ⟨hnd, List.nodup_singleton _, ?_⟩
  intro x hx hx2
  have hxp : x = phone := by simpa using hx2
  subst hxp
  rw [List.mem_map] at hx
  rcases hx with ⟨u, hu, hup⟩
  rw [List.any_eq_false] at habs
  have := habs u hu
  simp only [decide_eq_true_eq] at this
  exact this hup

theorem upsertUnsubFailure_nodup (tbl : List Unsub) (phone err : String) (name : Option String)
    (hnd : (tbl.map (fun u => u.phone)).Nodup) :
    ((upsertUnsubFailure tbl phone err name).map (fun u => u.phone)).Nodup := by
  rw [upsertUnsubFailure_phones]
  by_cases h : tbl.any (fun u => u.phone = phone) = true
  · rw [if_pos h]; exact hnd
  · rw [if_neg h]
    exact phones_append_nodup tbl _ phone hnd (by rwa [Bool.not_eq_true] at h)

theorem upsertSuppressedFailure_nodup (tbl : List Suppressed) (phone err : String)
    (srcLogId : Nat) (hnd : (tbl.map (fun u => u.phone)).Nodup) :
    ((upsertSuppressedFailure tbl phone err srcLogId).map (fun u => u.phone)).Nodup := by
  rw [upsertSuppressedFailure_phones]
  by_cases h : tbl.any (fun u => u.phone = phone) = true
  · rw [if_pos h]; exact hnd
  · rw [if_neg h]
    exact phones_append_nodup tbl _ phone hnd (by rwa [Bool.not_eq_true] at h)

theorem processOne_nodup (srcLogId : Nat) (acc : SupState × List String) (d : FailDetail)
    (hu : (acc.1.unsubscribed.map (fun u => u.phone)).Nodup)
    (hs : (acc.1.suppressed.map (fun u => u.phone)).Nodup) :
    ((processOneFailDetail srcLogId acc d).1.unsubscribed.map (fun u => u.phone)).Nodup ∧
    ((processOneFailDetail srcLogId acc d).1.suppressed.map (fun u => u.phone)).Nodup := by
  rcases acc with ⟨st, hp⟩
  by_cases h1 : failDetailProcessed d = true
  · by_cases h2 : normalize_phone d.phone = ""
    · simp only [processOneFailDetail, h1, h2]
      exact ⟨by simpa using hu, by simpa using hs⟩
    · by_cases h3 : classify_failure d.error = "opt_out"
      · simp only [processOneFailDetail, h1, h2, h3]
        constructor
        · have := upsertUnsubFailure_nodup st.unsubscribed (normalize_phone d.phone)
            d.error d.name (by simpa using hu)
          simpa using this
        · simpa using hs
      · by_cases h4 : classify_failure d.error = "hard_fail"
        · simp only [processOneFailDetail, h1, h2, h3, h4]
          constructor
          · simpa using hu
          · exact upsertSuppressedFailure_nodup _ _ _ _ (by simpa using hs)
        · simp only [processOneFailDetail, h1, h2, h3, h4]
          exact ⟨by simpa using hu, by simpa using hs⟩
  · simp only [processOneFailDetail, h1]
    exact ⟨by simpa using hu, by simpa using hs⟩

theorem pfd_fold_nodup (srcLogId : Nat) (details : List FailDetail) :
    ∀ acc : SupState × List String,
      (acc.1.unsubscribed.map (fun u => u.phone)).Nodup →
      (acc.1.suppressed.map (fun u => u.phone)).Nodup →
      ((details.foldl (processOneFailDetail srcLogId) acc).1.unsubscribed.map
        (fun u => u.phone)).Nodup ∧
      ((details.foldl (processOneFailDetail srcLogId) acc).1.suppressed.map
        (fun u => u.phone)).Nodup := by
  induction details with
  | nil => intro acc hu hs; exact ⟨hu, hs⟩
  | cons d ds ih =>
    intro acc hu hs
    rw [List.foldl_cons]
    have hstep := processOne_nodup srcLogId acc d hu hs
    exact ih _ hstep.1 hstep.2

theorem pfd_fold_community (srcLogId : Nat) (details : List FailDetail) :
    ∀ acc : SupState × List String,
      (details.foldl (processOneFailDetail srcLogId) acc).1.community = acc.1.community := by
  induction details with
  | nil => intro acc; rfl
  | cons d ds ih =>
    intro acc
    rw [List.foldl_cons, ih, processOne_community]

theorem pfd_fold_registrations (srcLogId : Nat) (details : List FailDetail) :
    ∀ acc : SupState × List String,
      (details.foldl (processOneFailDetail srcLogId) acc).1.registrations =
        acc.1.registrations := by
  induction details with
  | nil => intro acc; rfl
  | cons d ds ih =>
    intro acc
    rw [List.foldl_cons, ih, processOne_registrations]

theorem pfd_fold_hp_mono (srcLogId : Nat) (details : List FailDetail) :
    ∀ (acc : SupState × List String) (x : String), x ∈ acc.2 →
      x ∈ (details.foldl (processOneFailDetail srcLogId) acc).2 := by
  induction details with
  | nil => intro acc x hx; exact hx
  | cons d ds ih =>
    intro acc x hx
    rw [List.foldl_cons]
    apply ih
    rcases acc with ⟨st, hp⟩
    by_cases h1 : failDetailProcessed d = true
    · by_cases h2 : normalize_phone d.phone = ""
      · simpa [processOneFailDetail, h1, h2] using hx
      · by_cases h3 : classify_failure d.error = "opt_out"
        · simpa [processOneFailDetail, h1, h2, h3] using hx
        · by_cases h4 : classify_failure d.error = "hard_fail"
          · simp only [processOneFailDetail, h1, h2, h3, h4]
            by_cases h5 : hp.contains (normalize_phone d.phone) = true
            · simp only [h5, ite_true]
              exact hx
            · rw [Bool.not_eq_true] at h5
              simp only [h5, Bool.false_eq_true, ite_false]
              exact List.mem_append_left _ hx
          · simpa [processOneFailDetail, h1, h2, h3, h4] using hx
    · simpa [processOneFailDetail, h1] using hx

theorem pfd_fold_hp_mem (srcLogId : Nat) (details : List FailDetail) :
    ∀ (acc : SupState × List String) (d : FailDetail), d ∈ details →
      failDetailProcessed d = true → normalize_phone d.phone ≠ "" →
      classify_failure d.error = "hard_fail" →
      normalize_phone d.phone ∈ (details.foldl (processOneFailDetail srcLogId) acc).2 := by
  induction details with
  | nil => intro acc d hd; exact absurd hd (List.not_mem_nil d)
  | cons e es ih =>
    intro acc d hd hpr hph hcat
    rw [List.foldl_cons]
    rcases List.mem_cons.mp hd with hde | hde
    · subst hde
      apply pfd_fold_hp_mono
      rcases acc with ⟨st, hp⟩
      have hno : ¬ classify_failure d.error = "opt_out" := by rw [hcat]; decide
      simp only [processOneFailDetail, hpr, hph, hno, hcat]
      by_cases h5 : hp.contains (normalize_phone d.phone) = true
      · simp only [h5, ite_true]
        simpa using h5
      · simp only [h5]
        simp only [Bool.false_eq_true, ite_false]
        exact List.mem_append_right _ (List.mem_singleton.mpr rfl)
    · exact ih _ d hde hpr hph hcat

theorem upsertSuppressedFailure_spec (tbl : List Suppressed) (phone err : String)
    (srcLogId : Nat)
    (hle : (tbl.filter (fun u => u.phone = phone)).length ≤ 1) :
    ((upsertSuppressedFailure tbl phone err srcLogId).filter
      (fun u => u.phone = phone)).length = 1 ∧
    (∀ u ∈ (upsertSuppressedFailure tbl phone err srcLogId).filter
        (fun u => u.phone = phone),
      u.reason = err ∧ u.category = "hard_fail" ∧ u.source = "message_failure" ∧
        u.sourceType = "message_log" ∧ u.sourceMessageLogId = srcLogId) := by
  by_cases h : tbl.any (fun u => u.phone = phone) = true
  · have hmapfil : (upsertSuppressedFailure tbl phone err srcLogId).filter
        (fun u => u.phone = phone) =
        (tbl.filter (fun u => u.phone = phone)).map (fun u =>
          if u.phone = phone then
            { u with
              reason := err
              category := "hard_fail"
              source := "message_failure"
              sourceType := "message_log"
              sourceMessageLogId := srcLogId }
          else u) := by
      unfold upsertSuppressedFailure
      rw [if_pos h]
      apply filter_map_of_pred_preserved
      intro x
      by_cases hx : x.phone = phone <;> simp [hx]
    have hpos : 0 < (tbl.filter (fun u => u.phone = phone)).length := by
      rw [List.any_eq_true] at h
      rcases h with ⟨u, hu, hup⟩
      have : u ∈ tbl.filter (fun x => x.phone = phone) := List.mem_filter.mpr ⟨hu, hup⟩
      exact List.length_pos.mpr (List.ne_nil_of_mem this)
    constructor
    · rw [hmapfil, List.length_map]
      omega
    · intro u hu
      rw [hmapfil] at hu
      rw [List.mem_map] at hu
      rcases hu with ⟨v, hv, hvu⟩
      have hvp : v.phone = phone := by
        have := List.mem_filter.mp hv
        simpa using this.2
      rw [← hvu, if_pos hvp]
      exact ⟨rfl, rfl, rfl, rfl, rfl⟩
  · have hfil : tbl.filter (fun u => u.phone = phone) = [] := by
      rw [List.filter_eq_nil_iff]
      intro u hu
      rw [Bool.not_eq_true, List.any_eq_false] at h
      exact h u hu
    unfold upsertSuppressedFailure
    rw [if_neg h, List.filter_append, hfil]
    constructor
    · simp [List.filter]
    · intro u hu
      simp only [List.nil_append] at hu
      have heq := List.mem_singleton.mp (List.mem_filter.mp hu).1
      subst heq
      exact ⟨rfl, rfl, rfl, rfl, rfl⟩

theorem upsertUnsubFailure_spec (tbl : List Unsub) (phone err : String) (name : Option String)
    (herr : err ≠ "")
    (hle : (tbl.filter (fun u => u.phone = phone)).length ≤ 1) :
    ((upsertUnsubFailure tbl phone err name).filter (fun u => u.phone = phone)).length = 1 ∧
    (∀ u ∈ (upsertUnsubFailure tbl phone err name).filter (fun u => u.phone = phone),
      u.reason = some err ∧ u.source = "message_failure") := by
  by_cases h : tbl.any (fun u => u.phone = phone) = true
  · have hmapfil : (upsertUnsubFailure tbl phone err name).filter
        (fun u => u.phone = phone) =
        (tbl.filter (fun u => u.phone = phone)).map (fun u =>
          if u.phone = phone then
            { u with
              source := "message_failure"
              reason := if err ≠ "" then some err else u.reason
              name := if name.isSome && u.name.isNone then name else u.name }
          else u) := by
      unfold upsertUnsubFailure
      rw [if_pos h]
      apply filter_map_of_pred_preserved
      intro x
      by_cases hx : x.phone = phone <;> simp [hx]
    have hpos : 0 < (tbl.filter (fun u => u.phone = phone)).length := by
      rw [List.any_eq_true] at h
      rcases h with ⟨u, hu, hup⟩
      have : u ∈ tbl.filter (fun x => x.phone = phone) := List.mem_filter.mpr ⟨hu, hup⟩
      exact List.length_pos.mpr (List.ne_nil_of_mem this)
    constructor
    · rw [hmapfil, List.length_map]
      omega
    · intro u hu
      rw [hmapfil] at hu
      rw [List.mem_map] at hu
      rcases hu with ⟨v, hv, hvu⟩
      have hvp : v.phone = phone := by
        have := List.mem_filter.mp hv
        simpa using this.2
      rw [← hvu, if_pos hvp]
      exact ⟨by simp [herr], rfl⟩
  · have hfil : tbl.filter (fun u => u.phone = phone) = [] := by
      rw [List.filter_eq_nil_iff]
      intro u hu
      rw [Bool.not_eq_true, List.any_eq_false] at h
      exact h u hu
    unfold upsertUnsubFailure
    rw [if_neg h, List.filter_append, hfil]
    constructor
    · simp [List.filter]
    · intro u hu
      simp only [List.nil_append] at hu
      have heq := List.mem_singleton.mp (List.mem_filter.mp hu).1
      subst heq
      exact ⟨by simp [herr], rfl⟩

/-- Claim C8: process_failure_details is idempotent per phone. Phone
uniqueness of the unsubscribed and suppressed tables is preserved; an
opt_out entry upserts the single UnsubscribedContact for its normalized
phone (re-running with a different non-empty error text leaves one row
holding the latest reason and source); a hard_fail entry upserts the single
SuppressedContact likewise; a soft_fail entry persists nothing; and after
processing no community-member or event-registration row remains for any
phone suppressed as hard_fail in the batch. -/
theorem claim_C8_process_failure_details :
    (∀ (st : SupState) (details : List FailDetail) (srcLogId : Nat),
      (st.unsubscribed.map (fun u => u.phone)).Nodup →
      (st.suppressed.map (fun u => u.phone)).Nodup →
      (((process_failure_details st details srcLogId).1.unsubscribed.map
          (fun u => u.phone)).Nodup ∧
        ((process_failure_details st details srcLogId).1.suppressed.map
          (fun u => u.phone)).Nodup)) ∧
    (∀ (st : SupState) (d : FailDetail) (srcLogId : Nat),
      d.success = some false → classify_failure d.error = "opt_out" →
      normalize_phone d.phone ≠ "" → d.error ≠ "" →
      (st.unsubscribed.filter (fun u => u.phone = normalize_phone d.phone)).length ≤ 1 →
      (((process_failure_details st [d] srcLogId).1.unsubscribed.filter
          (fun u => u.phone = normalize_phone d.phone)).length = 1 ∧
       ∀ u ∈ (process_failure_details st [d] srcLogId).1.unsubscribed.filter
          (fun u => u.phone = normalize_phone d.phone),
         u.reason = some d.error ∧ u.source = "message_failure")) ∧
    (∀ (st : SupState) (d : FailDetail) (srcLogId : Nat),
      d.success = some false → classify_failure d.error = "hard_fail" →
      normalize_phone d.phone ≠ "" →
      (st.suppressed.filter (fun u => u.phone = normalize_phone d.phone)).length ≤ 1 →
      (((process_failure_details st [d] srcLogId).1.suppressed.filter
          (fun u => u.phone = normalize_phone d.phone)).length = 1 ∧
       ∀ u ∈ (process_failure_details st [d] srcLogId).1.suppressed.filter
          (fun u => u.phone = normalize_phone d.phone),
         u.reason = d.error ∧ u.category = "hard_fail" ∧ u.source = "message_failure" ∧
           u.sourceType = "message_log" ∧ u.sourceMessageLogId = srcLogId)) ∧
    (∀ (st : SupState) (d : FailDetail) (srcLogId : Nat),
      classify_failure d.error = "soft_fail" →
      process_failure_details st [d] srcLogId = (st, [])) ∧
    (∀ (st : SupState) (details : List FailDetail) (srcLogId : Nat),
      (∀ c ∈ (process_failure_details st details srcLogId).1.community,
        c.phone ∉ (process_failure_details st details srcLogId).2) ∧
      (∀ r ∈ (process_failure_details st details srcLogId).1.registrations,
        r.phone ∉ (process_failure_details st details srcLogId).2) ∧
      (∀ d ∈ details, failDetailProcessed d = true → normalize_phone d.phone ≠ "" →
        classify_failure d.error = "hard_fail" →
        normalize_phone d.phone ∈ (process_failure_details st details srcLogId).2)) := by
  refine ⟨?_, ?_, ?_, ?_, ?_⟩
  · intro st details srcLogId hu hs
    rcases hfold : details.foldl (processOneFailDetail srcLogId) (st, []) with ⟨st1, hp⟩
    have hnodup := pfd_fold_nodup srcLogId details (st, [])
      (by simpa using hu) (by simpa using hs)
    rw [hfold] at hnodup
    simp only [process_failure_details, hfold]
    by_cases hhp : hp = []
    · simpa [hhp] using hnodup
    · simp only [hhp, ite_false]
      exact ⟨hnodup.1, hnodup.2⟩
  · intro st d srcLogId hsel hcat hph herr hle
    have hpr : failDetailProcessed d = true := by simp [failDetailProcessed, hsel]
    have hres : process_failure_details st [d] srcLogId =
        ({ st with unsubscribed :=
            upsertUnsubFailure st.unsubscribed (normalize_phone d.phone) d.error d.name }, []) := by
      simp [process_failure_details, processOneFailDetail, hpr, hph, hcat]
    rw [hres]
    exact upsertUnsubFailure_spec st.unsubscribed (normalize_phone d.phone) d.error d.name
      herr hle
  · intro st d srcLogId hsel hcat hph hle
    have hpr : failDetailProcessed d = true := by simp [failDetailProcessed, hsel]
    have hno : ¬ classify_failure d.error = "opt_out" := by rw [hcat]; decide
    have hres : (process_failure_details st [d] srcLogId).1.suppressed =
        upsertSuppressedFailure st.suppressed (normalize_phone d.phone) d.error srcLogId := by
      simp only [process_failure_details, List.foldl_cons, List.foldl_nil]
      simp only [processOneFailDetail, hpr, hph, hno, hcat]
      simp
    rw [hres]
    exact upsertSuppressedFailure_spec st.suppressed (normalize_phone d.phone) d.error
      srcLogId hle
  · intro st d srcLogId hcat
    simp only [process_failure_details, List.foldl_cons, List.foldl_nil]
    by_cases hpr : failDetailProcessed d = true
    · by_cases hph : normalize_phone d.phone = ""
      · simp [processOneFailDetail, hpr, hph]
      · have h3 : ¬ classify_failure d.error = "opt_out" := by rw [hcat]; decide
        have h4 : ¬ classify_failure d.error = "hard_fail" := by rw [hcat]; decide
        simp [processOneFailDetail, hpr, hph, h3, h4]
    · simp [processOneFailDetail, hpr]
  · intro st details srcLogId
    rcases hfold : details.foldl (processOneFailDetail srcLogId) (st, []) with ⟨st1, hp⟩
    refine ⟨?_, ?_, ?_⟩
    · intro c hc
      simp only [process_failure_details, hfold] at hc ⊢
      by_cases hhp : hp = []
      · rw [hhp]
        exact List.not_mem_nil _
      · simp only [hhp, ite_false] at hc
        have := List.mem_filter.mp hc
        intro hmem
        have hcontains : hp.contains c.phone = true := by simpa using hmem
        rw [hcontains] at this
        simpa using this.2
    · intro r hr
      simp only [process_failure_details, hfold] at hr ⊢
      by_cases hhp : hp = []
      · rw [hhp]
        exact List.not_mem_nil _
      · simp only [hhp, ite_false] at hr
        have := List.mem_filter.mp hr
        intro hmem
        have hcontains : hp.contains r.phone = true := by simpa using hmem
        rw [hcontains] at this
        simpa using this.2
    · intro d hd hpr hph hcat
      have := pfd_fold_hp_mem srcLogId details (st, []) d hd hpr hph hcat
      rw [hfold] at this
      simpa [process_failure_details, hfold] using this

/-- Witness for claim C8: a hard-failure entry re-processed over a table
already holding a suppression row for the same phone keeps one row with the
latest reason. -/
theorem claim_C8_process_failure_details_witness :
    ((process_failure_details
        { unsubscribed := []
          suppressed := [{ phone := "+15551112222", reason := "old reason",
                           category := "hard_fail", source := "message_failure",
                           sourceType := "message_log", sourceMessageLogId := 1 }]
          community := [], registrations := [] }
        [{ phone := "+1 555 111 2222", name := none, success := some false,
           status := none, error := "Carrier violation: 30005" }]
        7).1.suppressed.filter
      (fun u => u.phone = normalize_phone "+1 555 111 2222")).length = 1 :=
  (claim_C8_process_failure_details.2.2.1
    { unsubscribed := []
      suppressed := [{ phone := "+15551112222", reason := "old reason",
                       category := "hard_fail", source := "message_failure",
                       sourceType := "message_log", sourceMessageLogId := 1 }]
      community := [], registrations := [] }
    { phone := "+1 555 111 2222", name := none, success := some false,
      status := none, error := "Carrier violation: 30005" }
    7 (by decide) (by decide) (by decide) (by decide)).1

/-! ## Engine state projection lemmas -/

theorem appendInboxMessage_sessions (st : EngineState) (tp p dir body : String)
    (sid : Option String) (a : Option String) (aid : Option Nat) (mk ds de : Option String)
    (now : Nat) :
    (appendInboxMessage st tp p dir body sid a aid mk ds de now).sessions = st.sessions := rfl

theorem appendInboxMessage_unsubscribed (st : EngineState) (tp p dir body : String)
    (sid : Option String) (a : Option String) (aid : Option Nat) (mk ds de : Option String)
    (now : Nat) :
    (appendInboxMessage st tp p dir body sid a aid mk ds de now).unsubscribed =
      st.unsubscribed := rfl

theorem appendInboxMessage_registrations (st : EngineState) (tp p dir body : String)
    (sid : Option String) (a : Option String) (aid : Option Nat) (mk ds de : Option String)
    (now : Nat) :
    (appendInboxMessage st tp p dir body sid a aid mk ds de now).registrations =
      st.registrations := rfl

theorem getOrCreateThread_sessions (st : EngineState) (phone cn : String) (now : Nat) :
    (getOrCreateThread st phone cn now).sessions = st.sessions := by
  unfold getOrCreateThread
  rcases hf : st.threads.find? (fun t => t.phone = phone) with _ | t <;> rw [hf] <;>
    first
    | rfl
    | (split <;> first | rfl | (split <;> rfl))

theorem getOrCreateThread_unsubscribed (st : EngineState) (phone cn : String) (now : Nat) :
    (getOrCreateThread st phone cn now).unsubscribed = st.unsubscribed := by
  unfold getOrCreateThread
  rcases hf : st.threads.find? (fun t => t.phone = phone) with _ | t <;> rw [hf] <;>
    first
    | rfl
    | (split <;> first | rfl | (split <;> rfl))

theorem getOrCreateThread_registrations (st : EngineState) (phone cn : String) (now : Nat) :
    (getOrCreateThread st phone cn now).registrations = st.registrations := by
  unfold getOrCreateThread
  rcases hf : st.threads.find? (fun t => t.phone = phone) with _ | t <;> rw [hf] <;>
    first
    | rfl
    | (split <;> first | rfl | (split <;> rfl))

theorem sendAutomatedReply_sessions (st : EngineState) (phone body source : String)
    (sourceId : Option Nat) (now : Nat) :
    (sendAutomatedReply st phone body source sourceId now).sessions = st.sessions := by
  unfold sendAutomatedReply
  split <;> (dsimp only; first | rfl | (split <;> rfl))

theorem sendAutomatedReply_unsubscribed (st : EngineState) (phone body source : String)
    (sourceId : Option Nat) (now : Nat) :
    (sendAutomatedReply st phone body source sourceId now).unsubscribed = st.unsubscribed := by
  unfold sendAutomatedReply
  split <;> (dsimp only; first | rfl | (split <;> rfl))

theorem sendAutomatedReply_registrations (st : EngineState) (phone body source : String)
    (sourceId : Option Nat) (now : Nat) :
    (sendAutomatedReply st phone body source sourceId now).registrations =
      st.registrations := by
  unfold sendAutomatedReply
  split <;> (dsimp only; first | rfl | (split <;> rfl))

theorem sendReplies_sessions (replies : List String) :
    ∀ (st : EngineState) (phone source : String) (sourceId : Option Nat) (now : Nat),
      (sendReplies st phone replies source sourceId now).sessions = st.sessions := by
  induction replies with
  | nil => intro st phone source sourceId now; rfl
  | cons r rs ih =>
    intro st phone source sourceId now
    show (sendReplies (sendAutomatedReply st phone r source sourceId now)
        phone rs source sourceId now).sessions = st.sessions
    rw [ih, sendAutomatedReply_sessions]

theorem sendReplies_unsubscribed (replies : List String) :
    ∀ (st : EngineState) (phone source : String) (sourceId : Option Nat) (now : Nat),
      (sendReplies st phone replies source sourceId now).unsubscribed = st.unsubscribed := by
  induction replies with
  | nil => intro st phone source sourceId now; rfl
  | cons r rs ih =>
    intro st phone source sourceId now
    show (sendReplies (sendAutomatedReply st phone r source sourceId now)
        phone rs source sourceId now).unsubscribed = st.unsubscribed
    rw [ih, sendAutomatedReply_unsubscribed]

theorem sendReplies_registrations (replies : List String) :
    ∀ (st : EngineState) (phone source : String) (sourceId : Option Nat) (now : Nat),
      (sendReplies st phone replies source sourceId now).registrations =
        st.registrations := by
  induction replies with
  | nil => intro st phone source sourceId now; rfl
  | cons r rs ih =>
    intro st phone source sourceId now
    show (sendReplies (sendAutomatedReply st phone r source sourceId now)
        phone rs source sourceId now).registrations = st.registrations
    rw [ih, sendAutomatedReply_registrations]

/-! ## Claim C1: CANCEL or QUIT during an active survey session -/

theorem dispatchInbound_stop (st : EngineState) (phone inboundBody normalized : String)
    (session : Option Session) (now : Nat)
    (hstop : STOP_KEYWORDS.contains normalized = true) :
    dispatchInbound st phone inboundBody normalized session now =
      (sendAutomatedReply
        { st with
          unsubscribed := upsertUnsubscribedInbound st.unsubscribed phone inboundStopReason
          sessions := cancelActiveSessionsList st.sessions phone now }
        phone optOutConfirmationText "system" none now,
       "opt_out", [optOutConfirmationText], none) := by
  unfold dispatchInbound
  rw [if_pos hstop]

theorem cancelActive_mem (l : List Session) (phone : String) (now : Nat) (s : Session)
    (hs : s ∈ l) (hph : s.phone = phone) (hact : s.status = "active") :
    ({ s with status := "cancelled", completedAt := some now, lastActivityAt := now } :
      Session) ∈ cancelActiveSessionsList l phone now := by
  unfold cancelActiveSessionsList
  refine List.mem_map.mpr ⟨s, hs, ?_⟩
  rw [if_pos]
  simp [hph, hact]

theorem cancelActive_no_active (l : List Session) (phone : String) (now : Nat) :
    ∀ x ∈ cancelActiveSessionsList l phone now, x.phone = phone → x.status ≠ "active" := by
  intro x hx hphx
  unfold cancelActiveSessionsList at hx
  rw [List.mem_map] at hx
  rcases hx with ⟨s, hsl, hsx⟩
  by_cases hc : (s.phone = phone && s.status = "active") = true
  · rw [if_pos hc] at hsx
    rw [← hsx]
    simp
  · rw [if_neg hc] at hsx
    subst hsx
    intro hstat
    apply hc
    simp [hphx, hstat]

theorem upsertUnsubscribedInbound_mem (tbl : List Unsub) (phone reason : String) :
    ∃ u ∈ upsertUnsubscribedInbound tbl phone reason,
      u.phone = phone ∧ u.source = "inbound" := by
  unfold upsertUnsubscribedInbound
  by_cases h : tbl.any (fun u => u.phone = phone) = true
  · rw [if_pos h]
    rw [List.any_eq_true] at h
    rcases h with ⟨u, hu, hup⟩
    simp only [decide_eq_true_eq] at hup
    refine ⟨_, List.mem_map.mpr ⟨u, hu, rfl⟩, ?_⟩
    rw [if_pos hup]
    exact ⟨hup, rfl⟩
  · rw [if_neg h]
    refine ⟨_, List.mem_append_right _ (List.mem_singleton.mpr rfl), rfl, rfl⟩

def c1State : EngineState :=
  { threads := [], messages := [], unsubscribed := []
    sessions := [{ id := 7, surveyId := 1, phone := "+15551112222", status := "active",
                   currentQuestionIndex := 0, startedAt := 1, lastActivityAt := 1,
                   completedAt := none }]
    surveys := [{ id := 1, triggerKeyword := "FEEDBACK", introMessage := some "Welcome.",
                  questions := ["Q1"], completionMessage := some "Done.", isActive := true,
                  startCount := 1, completionCount := 0, linkedEventId := none }]
    rules := [], responses := [], registrations := [], nextSessionId := 8
    autoReplyEnabled := true }

def c1Payload : Payload :=
  { From := "+15551112222", Body := "CANCEL", MessageSid := "SM-C1", SmsSid := ""
    ProfileName := "" }

/-- Counterexample for claim C1 as stated: a phone with an active survey
session sends CANCEL; the claim predicts status survey_cancelled with no
UnsubscribedContact, but CANCEL is a STOP keyword checked first, so the
code takes the opt-out path: status opt_out and an UnsubscribedContact row
is created. -/
theorem claim_C1_counterexample :
    (process_inbound_sms c1State c1Payload 5).2.status = "opt_out" ∧
    (process_inbound_sms c1State c1Payload 5).2.status ≠ "survey_cancelled" ∧
    ((process_inbound_sms c1State c1Payload 5).1.unsubscribed.map (fun u => u.phone)) =
      ["+15551112222"] ∧
    ((process_inbound_sms c1State c1Payload 5).1.sessions.map (fun s => s.status)) =
      ["cancelled"] := by
  decide

/-- Amended claim C1: for every inbound message from a phone with an active
survey session whose body normalizes to CANCEL or QUIT, process_inbound_sms
takes the opt-out path, not a survey_cancelled path (CANCEL and QUIT are
STOP-family keywords and that check runs first, so the survey-cancel branch
is unreachable): it upserts an UnsubscribedContact with source inbound,
cancels the active session (status cancelled, completed_at set to now),
sends the fixed opt-out confirmation and returns status opt_out. -/
theorem claim_C1_amended (st : EngineState) (payload : Payload) (now : Nat) (s : Session)
    (hfrom : pyStrip payload.From ≠ "")
    (hval : validate_phone (normalize_phone (pyStrip payload.From)) = true)
    (hsid : sidTaken st.messages (resolvedPayloadSid payload) = false)
    (hkw : normalize_keyword (pyStrip payload.Body) = "CANCEL" ∨
      normalize_keyword (pyStrip payload.Body) = "QUIT")
    (hs : s ∈ st.sessions) (hph : s.phone = normalize_phone (pyStrip payload.From))
    (hact : s.status = "active") :
    (process_inbound_sms st payload now).2.status = "opt_out" ∧
    (process_inbound_sms st payload now).2.replies = [optOutConfirmationText] ∧
    ({ s with status := "cancelled", completedAt := some now, lastActivityAt := now } :
      Session) ∈ (process_inbound_sms st payload now).1.sessions ∧
    (∀ x ∈ (process_inbound_sms st payload now).1.sessions,
      x.phone = normalize_phone (pyStrip payload.From) → x.status ≠ "active") ∧
    (∃ u ∈ (process_inbound_sms st payload now).1.unsubscribed,
      u.phone = normalize_phone (pyStrip payload.From) ∧ u.source = "inbound") := by
  have hstop : STOP_KEYWORDS.contains (normalize_keyword (pyStrip payload.Body)) = true := by
    rcases hkw with h | h <;> rw [h] <;> decide
  have hnval : ¬¬(validate_phone (normalize_phone (pyStrip payload.From)) = true) :=
    not_not_intro hval
  have hnsid : ¬(sidTaken st.messages (resolvedPayloadSid payload) = true) := by
    rw [hsid]
    exact Bool.false_ne_true
  have hmain : process_inbound_sms st payload now =
      (sendAutomatedReply
        { (appendInboxMessage
            (getOrCreateThread st (normalize_phone (pyStrip payload.From))
              (pyStrip payload.ProfileName) now)
            (normalize_phone (pyStrip payload.From)) (normalize_phone (pyStrip payload.From))
            "inbound" (pyStrip payload.Body) (resolvedPayloadSid payload)
            none none none none none now) with
          unsubscribed := upsertUnsubscribedInbound
            (appendInboxMessage
              (getOrCreateThread st (normalize_phone (pyStrip payload.From))
                (pyStrip payload.ProfileName) now)
              (normalize_phone (pyStrip payload.From)) (normalize_phone (pyStrip payload.From))
              "inbound" (pyStrip payload.Body) (resolvedPayloadSid payload)
              none none none none none now).unsubscribed
            (normalize_phone (pyStrip payload.From)) inboundStopReason
          sessions := cancelActiveSessionsList
            (appendInboxMessage
              (getOrCreateThread st (normalize_phone (pyStrip payload.From))
                (pyStrip payload.ProfileName) now)
              (normalize_phone (pyStrip payload.From)) (normalize_phone (pyStrip payload.From))
              "inbound" (pyStrip payload.Body) (resolvedPayloadSid payload)
              none none none none none now).sessions
            (normalize_phone (pyStrip payload.From)) now }
        (normalize_phone (pyStrip payload.From)) optOutConfirmationText "system" none now,
       { status := "opt_out", phone := normalize_phone (pyStrip payload.From),
         replies := [optOutConfirmationText] }) := by
    simp only [process_inbound_sms]
    rw [if_neg hfrom, if_neg hnval, if_neg hnsid,
      dispatchInbound_stop _ _ _ _ _ _ hstop]
  rw [hmain]
  refine ⟨rfl, rfl, ?_, ?_, ?_⟩
  · rw [sendAutomatedReply_sessions]
    show _ ∈ cancelActiveSessionsList
      (appendInboxMessage (getOrCreateThread st _ _ _) _ _ _ _ _ _ _ _ _ _ _).sessions _ _
    rw [appendInboxMessage_sessions, getOrCreateThread_sessions]
    exact cancelActive_mem st.sessions _ now s hs hph hact
  · intro x hx
    rw [sendAutomatedReply_sessions] at hx
    rw [show ({ (appendInboxMessage (getOrCreateThread st
          (normalize_phone (pyStrip payload.From)) (pyStrip payload.ProfileName) now)
          (normalize_phone (pyStrip payload.From)) (normalize_phone (pyStrip payload.From))
          "inbound" (pyStrip payload.Body) (resolvedPayloadSid payload)
          none none none none none now) with
        unsubscribed := upsertUnsubscribedInbound
          (appendInboxMessage (getOrCreateThread st
            (normalize_phone (pyStrip payload.From)) (pyStrip payload.ProfileName) now)
            (normalize_phone (pyStrip payload.From)) (normalize_phone (pyStrip payload.From))
            "inbound" (pyStrip payload.Body) (resolvedPayloadSid payload)
            none none none none none now).unsubscribed
          (normalize_phone (pyStrip payload.From)) inboundStopReason
        sessions := cancelActiveSessionsList
          (appendInboxMessage (getOrCreateThread st
            (normalize_phone (pyStrip payload.From)) (pyStrip payload.ProfileName) now)
            (normalize_phone (pyStrip payload.From)) (normalize_phone (pyStrip payload.From))
            "inbound" (pyStrip payload.Body) (resolvedPayloadSid payload)
            none none none none none now).sessions
          (normalize_phone (pyStrip payload.From)) now } : EngineState).sessions =
      cancelActiveSessionsList st.sessions (normalize_phone (pyStrip payload.From)) now by
        rw [show ∀ st2 : EngineState, ∀ a b,
          ({ st2 with unsubscribed := a, sessions := b } : EngineState).sessions = b
          from fun _ _ _ => rfl]
        rw [appendInboxMessage_sessions, getOrCreateThread_sessions]] at hx
    exact cancelActive_no_active st.sessions _ now x hx
  · rw [sendAutomatedReply_unsubscribed]
    show ∃ u ∈ upsertUnsubscribedInbound
      (appendInboxMessage (getOrCreateThread st _ _ _) _ _ _ _ _ _ _ _ _ _ _).unsubscribed
      (normalize_phone (pyStrip payload.From)) inboundStopReason, _
    rw [appendInboxMessage_unsubscribed, getOrCreateThread_unsubscribed]
    exact upsertUnsubscribedInbound_mem st.unsubscribed _ inboundStopReason

/-- Witness for claim C1 amended: CANCEL with an active session at a
concrete state yields status opt_out. -/
theorem claim_C1_amended_witness :
    (process_inbound_sms c1State c1Payload 5).2.status = "opt_out" :=
  (claim_C1_amended c1State c1Payload 5
    { id := 7, surveyId := 1, phone := "+15551112222", status := "active",
      currentQuestionIndex := 0, startedAt := 1, lastActivityAt := 1, completedAt := none }
    (by decide) (by decide) (by decide) (Or.inl (by decide))
    (by decide) (by decide) (by decide)).1

/-! ## Claim C3: linked-survey completion upserts the event registration -/

theorem upsertRegistration_spec (regs : List Registration) (ev : Nat) (phone : String)
    (name : Option String)
    (hle : (regs.filter (fun r => r.eventId = ev && r.phone = phone)).length ≤ 1) :
    ((upsertRegistration regs ev phone name).filter
      (fun r => r.eventId = ev && r.phone = phone)).length = 1 ∧
    (∀ r ∈ (upsertRegistration regs ev phone name).filter
        (fun r => r.eventId = ev && r.phone = phone), r.name = name) := by
  by_cases h : regs.any (fun r => r.eventId = ev && r.phone = phone) = true
  · have hmapfil : (upsertRegistration regs ev phone name).filter
        (fun r => r.eventId = ev && r.phone = phone) =
        (regs.filter (fun r => r.eventId = ev && r.phone = phone)).map (fun r =>
          if r.eventId = ev && r.phone = phone then { r with name := name } else r) := by
      unfold upsertRegistration
      rw [if_pos h]
      apply filter_map_of_pred_preserved
      intro x
      by_cases hx : (x.eventId = ev && x.phone = phone) = true <;> simp [hx] <;>
        simp only [decide_eq_true_eq] at hx <;> simp [hx.1, hx.2]
    have hpos : 0 < (regs.filter (fun r => r.eventId = ev && r.phone = phone)).length := by
      rw [List.any_eq_true] at h
      rcases h with ⟨r, hr, hrp⟩
      have : r ∈ regs.filter (fun x => x.eventId = ev && x.phone = phone) :=
        List.mem_filter.mpr ⟨hr, hrp⟩
      exact List.length_pos.mpr (List.ne_nil_of_mem this)
    constructor
    · rw [hmapfil, List.length_map]
      omega
    · intro r hr
      rw [hmapfil] at hr
      rw [List.mem_map] at hr
      rcases hr with ⟨v, hv, hvr⟩
      have hvp := (List.mem_filter.mp hv).2
      rw [← hvr, if_pos hvp]
  · have hfil : regs.filter (fun r => r.eventId = ev && r.phone = phone) = [] := by
      rw [List.filter_eq_nil_iff]
      intro r hr
      rw [Bool.not_eq_true, List.any_eq_false] at h
      exact h r hr
    unfold upsertRegistration
    rw [if_neg h, List.filter_append, hfil]
    constructor
    · simp [List.filter]
    · intro r hr
      simp only [List.nil_append] at hr
      have heq := List.mem_singleton.mp (List.mem_filter.mp hr).1
      subst heq
      rfl

theorem upsertRegistration_other (regs : List Registration) (ev : Nat) (phone : String)
    (name : Option String) (ev2 : Nat) (phone2 : String)
    (hne : ¬(ev2 = ev ∧ phone2 = phone)) :
    (upsertRegistration regs ev phone name).filter
      (fun r => r.eventId = ev2 && r.phone = phone2) =
    regs.filter (fun r => r.eventId = ev2 && r.phone = phone2) := by
  by_cases h : regs.any (fun r => r.eventId = ev && r.phone = phone) = true
  · unfold upsertRegistration
    rw [if_pos h]
    rw [filter_map_of_pred_preserved]
    · apply (List.map_congr_left ?_).trans (List.map_id _)
      intro r hr
      have hrp := (List.mem_filter.mp hr).2
      simp only [decide_eq_true_eq, Bool.and_eq_true] at hrp
      by_cases hk : (r.eventId = ev && r.phone = phone) = true
      · simp only [decide_eq_true_eq, Bool.and_eq_true] at hk
        exact absurd ⟨hrp.1.symm.trans hk.1, hrp.2.symm.trans hk.2⟩ hne
      · simp [hk]
    · intro x
      by_cases hx : (x.eventId = ev && x.phone = phone) = true <;> simp [hx] <;>
        simp only [decide_eq_true_eq] at hx <;> simp [hx.1, hx.2]
  · unfold upsertRegistration
    rw [if_neg h, List.filter_append]
    have hnil : ([({ eventId := ev, phone := phone, name := name } : Registration)].filter
        (fun r => r.eventId = ev2 && r.phone = phone2)) = [] := by
      rw [List.filter_eq_nil_iff]
      intro r hr
      have heq := List.mem_singleton.mp hr
      subst heq
      simp only [Bool.and_eq_true, decide_eq_true_eq, not_and]
      intro h1 h2
      exact hne ⟨h1.symm, h2.symm⟩
    rw [hnil, List.append_nil]

/-- Claim C3 (the event-registration write on linked-survey completion is
modelled from the spec, see upsertRegistration): answering the last
question of an active session of a SurveyFlow linked to an external event
leaves exactly one registration for that (event, phone) pair, carrying the
best available name from the answers, regardless of whether a registration
already existed (upsert, never a duplicate), and leaves every other
(event, phone) pair untouched; a second completion by the same phone
therefore still leaves exactly one row. -/
theorem claim_C3_linked_completion (st : EngineState) (sess : Session) (survey : Survey)
    (answer : String) (now : Nat) (ev : Nat)
    (hfind : st.surveys.find? (fun sv => sv.id = sess.surveyId) = some survey)
    (hlinked : survey.linkedEventId = some ev)
    (hlast : sess.currentQuestionIndex + 1 = survey.questions.length)
    (hle : (st.registrations.filter
      (fun r => r.eventId = ev && r.phone = sess.phone)).length ≤ 1) :
    (((advanceSurvey st sess answer now).1.registrations.filter
      (fun r => r.eventId = ev && r.phone = sess.phone)).length = 1) ∧
    (∀ r ∈ (advanceSurvey st sess answer now).1.registrations.filter
        (fun r => r.eventId = ev && r.phone = sess.phone),
      r.name = bestAvailableName (advanceSurvey st sess answer now).1.responses sess.id) ∧
    (∀ (ev2 : Nat) (phone2 : String), ¬(ev2 = ev ∧ phone2 = sess.phone) →
      (advanceSurvey st sess answer now).1.registrations.filter
        (fun r => r.eventId = ev2 && r.phone = phone2) =
      st.registrations.filter (fun r => r.eventId = ev2 && r.phone = phone2)) := by
  have hlt : sess.currentQuestionIndex < survey.questions.length := by omega
  have hnlt : ¬(sess.currentQuestionIndex + 1 < survey.questions.length) := by omega
  have hresp : (advanceSurvey st sess answer now).1.responses =
      st.responses ++
        [⟨sess.id, survey.id, sess.phone, sess.currentQuestionIndex,
          survey.questions.getD sess.currentQuestionIndex "", answer⟩] := by
    simp only [advanceSurvey, hfind]
    rw [if_pos hlt, if_pos hlt, if_neg hnlt, hlinked]
  have hreg : (advanceSurvey st sess answer now).1.registrations =
      upsertRegistration st.registrations ev sess.phone
        (bestAvailableName
          (st.responses ++
            [⟨sess.id, survey.id, sess.phone, sess.currentQuestionIndex,
              survey.questions.getD sess.currentQuestionIndex "", answer⟩])
          sess.id) := by
    simp only [advanceSurvey, hfind]
    rw [if_pos hlt, if_pos hlt, if_neg hnlt, hlinked]
  refine ⟨?_, ?_, ?_⟩
  · rw [hreg]
    exact (upsertRegistration_spec st.registrations ev sess.phone _ hle).1
  · intro r hr
    rw [hresp]
    rw [hreg] at hr
    exact (upsertRegistration_spec st.registrations ev sess.phone _ hle).2 r hr
  · intro ev2 phone2 hne
    rw [hreg]
    exact upsertRegistration_other st.registrations ev sess.phone _ ev2 phone2 hne

/-- Witness for claim C3: completing a one-question linked survey creates
exactly one registration. -/
theorem claim_C3_linked_completion_witness :
    (((advanceSurvey
        { threads := [], messages := [], unsubscribed := []
          sessions := [{ id := 3, surveyId := 2, phone := "+15557770002", status := "active",
                         currentQuestionIndex := 0, startedAt := 1, lastActivityAt := 1,
                         completedAt := none }]
          surveys := [{ id := 2, triggerKeyword := "SUMMER RSVP",
                        introMessage := some "Welcome.", questions := ["Name?"],
                        completionMessage := some "Done.", isActive := true, startCount := 1,
                        completionCount := 0, linkedEventId := some 42 }]
          rules := [], responses := [], registrations := [], nextSessionId := 4
          autoReplyEnabled := true }
        { id := 3, surveyId := 2, phone := "+15557770002", status := "active",
          currentQuestionIndex := 0, startedAt := 1, lastActivityAt := 1, completedAt := none }
        "Jordan" 9).1.registrations.filter
      (fun r => r.eventId = 42 && r.phone = "+15557770002")).length = 1) :=
  (claim_C3_linked_completion
    { threads := [], messages := [], unsubscribed := []
      sessions := [{ id := 3, surveyId := 2, phone := "+15557770002", status := "active",
                     currentQuestionIndex := 0, startedAt := 1, lastActivityAt := 1,
                     completedAt := none }]
      surveys := [{ id := 2, triggerKeyword := "SUMMER RSVP",
                    introMessage := some "Welcome.", questions := ["Name?"],
                    completionMessage := some "Done.", isActive := true, startCount := 1,
                    completionCount := 0, linkedEventId := some 42 }]
      rules := [], responses := [], registrations := [], nextSessionId := 4
      autoReplyEnabled := true }
    { id := 3, surveyId := 2, phone := "+15557770002", status := "active",
      currentQuestionIndex := 0, startedAt := 1, lastActivityAt := 1, completedAt := none }
    { id := 2, triggerKeyword := "SUMMER RSVP", introMessage := some "Welcome.",
      questions := ["Name?"], completionMessage := some "Done.", isActive := true,
      startCount := 1, completionCount := 0, linkedEventId := some 42 }
    "Jordan" 9 42 (by decide) (by decide) (by decide) (by decide)).1

/-! ## Claim C7: at most one active session per phone -/

/-- The number of active sessions a phone holds. -/
def countActive (sessions : List Session) (phone : String) : Nat :=
  (sessions.filter (fun s => s.phone = phone && s.status = "active")).length

theorem countActive_append (l1 l2 : List Session) (q : String) :
    countActive (l1 ++ l2) q = countActive l1 q + countActive l2 q := by
  simp [countActive, List.filter_append]

theorem countActive_map_le (l : List Session) (f : Session → Session) (q : String)
    (hf : ∀ s, (f s).phone = s.phone ∧ ((f s).status = "active" → s.status = "active")) :
    countActive (l.map f) q ≤ countActive l q := by
  induction l with
  | nil => exact le_refl _
  | cons s ss ih =>
    simp only [countActive, List.map_cons, List.filter_cons] at ih ⊢
    by_cases hfs : ((f s).phone = q && (f s).status = "active") = true
    · have hss : (s.phone = q && s.status = "active") = true := by
        simp only [Bool.and_eq_true, decide_eq_true_eq] at hfs ⊢
        exact ⟨(hf s).1.symm.trans hfs.1, (hf s).2 hfs.2⟩
      simp only [hfs, hss, ite_true, List.length_cons]
      omega
    · rw [Bool.not_eq_true] at hfs
      by_cases hss : (s.phone = q && s.status = "active") = true
      · simp only [hfs, hss, Bool.false_eq_true, ite_false, ite_true, List.length_cons]
        omega
      · rw [Bool.not_eq_true] at hss
        simp only [hfs, hss, Bool.false_eq_true, ite_false]
        exact ih

theorem countActive_cancel_self (l : List Session) (phone : String) (now : Nat) :
    countActive (cancelActiveSessionsList l phone now) phone = 0 := by
  simp only [countActive, List.length_eq_zero]
  rw [List.filter_eq_nil_iff]
  intro x hx
  unfold cancelActiveSessionsList at hx
  rw [List.mem_map] at hx
  rcases hx with ⟨s, _, hsx⟩
  by_cases hc : (s.phone = phone && s.status = "active") = true
  · rw [if_pos hc] at hsx
    rw [← hsx]
    simp
  · rw [if_neg hc] at hsx
    rw [← hsx]
    simp only [Bool.and_eq_true, decide_eq_true_eq, not_and]
    intro h1 h2
    apply hc
    simp [h1, h2]

theorem countActive_cancel_other (l : List Session) (phone : String) (now : Nat) (q : String)
    (hq : q ≠ phone) :
    countActive (cancelActiveSessionsList l phone now) q = countActive l q := by
  unfold countActive cancelActiveSessionsList
  rw [filter_map_of_pred_preserved]
  · rw [List.length_map]
  · intro s
    by_cases hc : (s.phone = phone && s.status = "active") = true
    · rw [if_pos hc]
      simp only [Bool.and_eq_true, decide_eq_true_eq] at hc
      have h1 : ¬ (s.phone = q) := by rw [hc.1]; exact fun h => hq h.symm
      simp [h1]
    · rw [if_neg hc]

theorem cancelSessionById_countActive_le (l : List Session) (sessId : Nat) (now : Nat)
    (q : String) :
    countActive (cancelSessionById l sessId now) q ≤ countActive l q := by
  apply countActive_map_le
  intro s
  by_cases hc : s.id = sessId
  · constructor
    · rw [if_pos hc]
    · rw [if_pos hc]
      intro h
      simp at h
  · rw [if_neg hc]
    exact ⟨rfl, fun h => h⟩

theorem advanceSurvey_countActive_le (st : EngineState) (sess : Session) (t : String)
    (now : Nat) (q : String) :
    countActive (advanceSurvey st sess t now).1.sessions q ≤ countActive st.sessions q := by
  rcases hf : st.surveys.find? (fun sv => sv.id = sess.surveyId) with _ | survey
  · have : (advanceSurvey st sess t now).1.sessions = st.sessions := by
      simp only [advanceSurvey, hf]
    rw [this]
  · by_cases h1 : sess.currentQuestionIndex < survey.questions.length
    · by_cases h2 : sess.currentQuestionIndex + 1 < survey.questions.length
      · have hsess : (advanceSurvey st sess t now).1.sessions =
            st.sessions.map (fun s => if s.id = sess.id then
              { s with
                currentQuestionIndex := sess.currentQuestionIndex + 1
                lastActivityAt := now }
              else s) := by
          simp only [advanceSurvey, hf]
          rw [if_pos h1, if_pos h1, if_pos h2]
        rw [hsess]
        apply countActive_map_le
        intro s
        by_cases hc : s.id = sess.id
        · rw [if_pos hc]
          exact ⟨rfl, fun h => h⟩
        · rw [if_neg hc]
          exact ⟨rfl, fun h => h⟩
      · have hsess : (advanceSurvey st sess t now).1.sessions =
            st.sessions.map (fun s => if s.id = sess.id then
              { s with
                currentQuestionIndex := sess.currentQuestionIndex + 1
                lastActivityAt := now
                status := "completed"
                completedAt := some now }
              else s) := by
          simp only [advanceSurvey, hf]
          rw [if_pos h1, if_pos h1, if_neg h2]
          rcases hlk : survey.linkedEventId with _ | ev <;> rfl
        rw [hsess]
        apply countActive_map_le
        intro s
        by_cases hc : s.id = sess.id
        · rw [if_pos hc]
          exact ⟨rfl, fun h => by simp at h⟩
        · rw [if_neg hc]
          exact ⟨rfl, fun h => h⟩
    · have h2 : ¬ sess.currentQuestionIndex < survey.questions.length := h1
      have hsess : (advanceSurvey st sess t now).1.sessions =
          st.sessions.map (fun s => if s.id = sess.id then
            { s with
              currentQuestionIndex := sess.currentQuestionIndex
              lastActivityAt := now
              status := "completed"
              completedAt := some now }
            else s) := by
        simp only [advanceSurvey, hf]
        rw [if_neg h1, if_neg h1, if_neg h2]
        rcases hlk : survey.linkedEventId with _ | ev <;> rfl
      rw [hsess]
      apply countActive_map_le
      intro s
      by_cases hc : s.id = sess.id
      · rw [if_pos hc]
        exact ⟨rfl, fun h => by simp at h⟩
      · rw [if_neg hc]
        exact ⟨rfl, fun h => h⟩

theorem startSurvey_sessions (st : EngineState) (survey : Survey) (phone : String)
    (now : Nat) :
    (startSurvey st survey phone now).1.sessions =
      cancelActiveSessionsList st.sessions phone now ++
        [{ id := st.nextSessionId, surveyId := survey.id, phone := phone,
           status := if survey.questions = [] then "completed" else "active",
           currentQuestionIndex := 0, startedAt := now, lastActivityAt := now,
           completedAt := if survey.questions = [] then some now else none }] := rfl

theorem startSurvey_countActive (st : EngineState) (survey : Survey) (phone : String)
    (now : Nat) (q : String) (h : countActive st.sessions q ≤ 1) :
    countActive (startSurvey st survey phone now).1.sessions q ≤ 1 := by
  rw [startSurvey_sessions, countActive_append]
  by_cases hq : q = phone
  · subst hq
    rw [countActive_cancel_self]
    have hone : countActive
        [({ id := st.nextSessionId
            surveyId := survey.id
            phone := q
            status := if survey.questions = [] then "completed" else "active"
            currentQuestionIndex := 0
            startedAt := now
            lastActivityAt := now
            completedAt := if survey.questions = [] then some now else none } : Session)] q ≤ 1 :=
      List.length_filter_le _ _
    omega
  · rw [countActive_cancel_other _ _ _ _ hq]
    have hzero : countActive
        [({ id := st.nextSessionId
            surveyId := survey.id
            phone := phone
            status := if survey.questions = [] then "completed" else "active"
            currentQuestionIndex := 0
            startedAt := now
            lastActivityAt := now
            completedAt := if survey.questions = [] then some now else none } : Session)] q = 0 := by
      simp only [countActive, List.length_eq_zero]
      rw [List.filter_eq_nil_iff]
      intro x hx
      have heq := List.mem_singleton.mp hx
      subst heq
      simp only [Bool.and_eq_true, decide_eq_true_eq, not_and]
      intro h1
      exact absurd h1.symm hq
    omega

theorem dispatchInbound_countActive (st : EngineState) (phone body normalized : String)
    (session : Option Session) (now : Nat)
    (h : ∀ q, countActive st.sessions q ≤ 1) :
    ∀ q, countActive (dispatchInbound st phone body normalized session now).1.sessions q ≤ 1 := by
  intro q
  unfold dispatchInbound
  by_cases hstop : STOP_KEYWORDS.contains normalized = true
  · rw [if_pos hstop]
    rw [sendAutomatedReply_sessions]
    show countActive (cancelActiveSessionsList st.sessions phone now) q ≤ 1
    by_cases hq : q = phone
    · subst hq
      rw [countActive_cancel_self]
      omega
    · rw [countActive_cancel_other _ _ _ _ hq]
      exact h q
  · rw [if_neg hstop]
    rcases session with _ | sess
    · dsimp only
      by_cases hstart : START_KEYWORDS.contains normalized = true
      · rw [if_pos hstart]
        rw [sendAutomatedReply_sessions]
        exact h q
      · rw [if_neg hstart]
        rcases hs : findSurveyByCandidates st.surveys (keyword_candidates body) with _ | cs
        · dsimp only
          rcases hr : findRuleByCandidates st.rules (keyword_candidates body) with _ | cr
          · exact h q
          · rcases cr with ⟨cand, rule⟩
            dsimp only
            rw [sendAutomatedReply_sessions]
            exact h q
        · rcases cs with ⟨cand, survey⟩
          dsimp only
          rcases hss : startSurvey st survey phone now with ⟨st2, reps⟩
          show countActive (sendReplies st2 phone reps "survey" (some survey.id) now).sessions q ≤ 1
          rw [sendReplies_sessions]
          have := startSurvey_countActive st survey phone now q (h q)
          rw [hss] at this
          exact this
    · dsimp only
      by_cases hcancel : SURVEY_CANCEL_KEYWORDS.contains normalized = true
      · rw [if_pos hcancel]
        rw [sendAutomatedReply_sessions]
        show countActive (cancelSessionById st.sessions sess.id now) q ≤ 1
        exact le_trans (cancelSessionById_countActive_le st.sessions sess.id now q) (h q)
      · rw [if_neg hcancel]
        rcases hadv : advanceSurvey st sess body now with ⟨st2, reps⟩
        show countActive (sendReplies st2 phone reps "survey" (some sess.surveyId) now).sessions q ≤ 1
        rw [sendReplies_sessions]
        have := advanceSurvey_countActive_le st sess body now q
        rw [hadv] at this
        exact le_trans this (h q)

theorem process_inbound_sms_countActive (st : EngineState) (payload : Payload) (now : Nat)
    (h : ∀ q, countActive st.sessions q ≤ 1) :
    ∀ q, countActive (process_inbound_sms st payload now).1.sessions q ≤ 1 := by
  intro q
  unfold process_inbound_sms
  by_cases h1 : pyStrip payload.From = ""
  · rw [if_pos h1]
    exact h q
  · rw [if_neg h1]
    by_cases h2 : validate_phone (normalize_phone (pyStrip payload.From)) = true
    · rw [if_neg (not_not_intro h2)]
      by_cases h3 : sidTaken st.messages (resolvedPayloadSid payload) = true
      · rw [if_pos h3]
        exact h q
      · rw [if_neg h3]
        have hbase : ∀ q2, countActive
            ((appendInboxMessage
              (getOrCreateThread st (normalize_phone (pyStrip payload.From))
                (pyStrip payload.ProfileName) now)
              (normalize_phone (pyStrip payload.From)) (normalize_phone (pyStrip payload.From))
              "inbound" (pyStrip payload.Body) (resolvedPayloadSid payload)
              none none none none none now)).sessions q2 ≤ 1 := by
          intro q2
          rw [appendInboxMessage_sessions, getOrCreateThread_sessions]
          exact h q2
        have hd := dispatchInbound_countActive
          (appendInboxMessage
            (getOrCreateThread st (normalize_phone (pyStrip payload.From))
              (pyStrip payload.ProfileName) now)
            (normalize_phone (pyStrip payload.From)) (normalize_phone (pyStrip payload.From))
            "inbound" (pyStrip payload.Body) (resolvedPayloadSid payload)
            none none none none none now)
          (normalize_phone (pyStrip payload.From)) (pyStrip payload.Body)
          (normalize_keyword (pyStrip payload.Body))
          (activeSession
            (appendInboxMessage
              (getOrCreateThread st (normalize_phone (pyStrip payload.From))
                (pyStrip payload.ProfileName) now)
              (normalize_phone (pyStrip payload.From)) (normalize_phone (pyStrip payload.From))
              "inbound" (pyStrip payload.Body) (resolvedPayloadSid payload)
              none none none none none now).sessions
            (normalize_phone (pyStrip payload.From)))
          now hbase
        dsimp only
        rcases hmk : (dispatchInbound
            (appendInboxMessage
              (getOrCreateThread st (normalize_phone (pyStrip payload.From))
                (pyStrip payload.ProfileName) now)
              (normalize_phone (pyStrip payload.From)) (normalize_phone (pyStrip payload.From))
              "inbound" (pyStrip payload.Body) (resolvedPayloadSid payload)
              none none none none none now)
            (normalize_phone (pyStrip payload.From)) (pyStrip payload.Body)
            (normalize_keyword (pyStrip payload.Body))
            (activeSession
              (appendInboxMessage
                (getOrCreateThread st (normalize_phone (pyStrip payload.From))
                  (pyStrip payload.ProfileName) now)
                (normalize_phone (pyStrip payload.From)) (normalize_phone (pyStrip payload.From))
                "inbound" (pyStrip payload.Body) (resolvedPayloadSid payload)
                none none none none none now).sessions
              (normalize_phone (pyStrip payload.From)))
            now).2.2.2 with _ | mk
        · dsimp only
          exact hd q
        · dsimp only
          exact hd q
    · rw [if_pos h2]
      exact h q

/-- Reachability through the inbound automation operations: any state with
no sessions (arbitrary CRUD setup), followed by process_inbound_sms steps
and by CRUD edits that leave the session table alone. -/
inductive ReachableEngine : EngineState → Prop
  | init : ∀ st : EngineState, st.sessions = [] → ReachableEngine st
  | tick : ∀ (st : EngineState) (payload : Payload) (now : Nat),
      ReachableEngine st → ReachableEngine (process_inbound_sms st payload now).1
  | crud : ∀ st st2 : EngineState,
      ReachableEngine st → st2.sessions = st.sessions → ReachableEngine st2

/-- Claim C7: in every state reachable through the inbound automation
operations each phone has at most one active SurveySession; and starting a
new SurveyFlow for a phone with an active session force-cancels the old
session (status cancelled, completed_at set) and keeps the phone at no more
than one active session. -/
theorem claim_C7_single_active_session :
    (∀ st : EngineState, ReachableEngine st →
      ∀ phone, countActive st.sessions phone ≤ 1) ∧
    (∀ (st : EngineState) (survey : Survey) (phone : String) (now : Nat) (s : Session),
      s ∈ st.sessions → s.phone = phone → s.status = "active" →
      (({ s with status := "cancelled", completedAt := some now, lastActivityAt := now } :
        Session) ∈ (startSurvey st survey phone now).1.sessions) ∧
      ((∀ q, countActive st.sessions q ≤ 1) →
        countActive (startSurvey st survey phone now).1.sessions phone ≤ 1)) := by
  constructor
  · intro st hreach
    induction hreach with
    | init st hs =>
      intro phone
      rw [hs]
      exact Nat.zero_le 1
    | tick st payload now _ ih =>
      exact process_inbound_sms_countActive st payload now ih
    | crud st st2 _ hsess ih =>
      intro phone
      rw [hsess]
      exact ih phone
  · intro st survey phone now s hs hph hact
    constructor
    · rw [startSurvey_sessions]
      exact List.mem_append_left _ (cancelActive_mem st.sessions phone now s hs hph hact)
    · intro hall
      exact startSurvey_countActive st survey phone now phone (hall phone)

/-- Witness for claim C7: a concrete session-free state is reachable and
satisfies the invariant. -/
theorem claim_C7_single_active_session_witness :
    countActive
      ({ threads := [], messages := [], unsubscribed := [], sessions := [], surveys := []
         rules := [], responses := [], registrations := [], nextSessionId := 0
         autoReplyEnabled := true } : EngineState).sessions "+15551112222" ≤ 1 :=
  claim_C7_single_active_session.1
    { threads := [], messages := [], unsubscribed := [], sessions := [], surveys := []
      rules := [], responses := [], registrations := [], nextSessionId := 0
      autoReplyEnabled := true }
    (ReachableEngine.init _ rfl) "+15551112222"

end SMSAdmin
